import Mathlib

/-!
# Clarius OEM Qt example: the BLE probe controller (`src/example/qt/ble.cpp`)

A shallow embedding of the class `Ble`.  The object's members become the fields of the
structure `Ble`; every member function and every slot becomes a function from the state
before the call to a `Result`: the returned value, the state after the call and the
ordered trace of what the call did towards the outside (signals emitted to the listeners
of `Ble`, requests issued to the Qt Bluetooth objects).

The Qt Bluetooth objects (`QBluetoothDeviceDiscoveryAgent`, `QLowEnergyController`,
`QLowEnergyService`) are the environment.  Of each one the embedding keeps what `ble.cpp`
reads (a state, the characteristics of a service, the devices of a scan) and the
connections `ble.cpp` makes to its signals.
-/

namespace Clarius

/-! ## Qt value types -/

/-- A `QString`, as its sequence of characters. -/
abbrev QString := String

/-- A `QByteArray`, as the list of its bytes (each below 256). -/
abbrev QByteArray := List Nat

/-- `QString::isEmpty`. -/
def QString.isEmpty (s : QString) : Bool := s.data.isEmpty

/-- `QString::startsWith(pat)`, case sensitive. -/
def QString.startsWith (s pat : QString) : Bool := pat.data.isPrefixOf s.data

/-- The loop of `QString::remove(const QString&)`: scan from the left, and at every position
where `pat` occurs delete the occurrence and go on right after it.  `skip` counts the
characters of the occurrence being deleted that are still ahead. -/
def QString.removeLoop (pat : List Char) : Nat → List Char → List Char
  | _, [] => []
  | skip + 1, _ :: cs => QString.removeLoop pat skip cs
  | 0, c :: cs =>
    if pat.isPrefixOf (c :: cs) then QString.removeLoop pat (pat.length - 1) cs
    else c :: QString.removeLoop pat 0 cs

/-- `QString::remove(pat)`: removes every occurrence of `pat` (nothing for an empty `pat`). -/
def QString.remove (s pat : QString) : QString :=
  if pat.data.isEmpty then s else ⟨QString.removeLoop pat.data 0 s.data⟩

/-- The value of one hexadecimal digit, `none` for any other character
(`QtMiscUtils::fromHex`). -/
def hexDigit (c : Char) : Option Nat :=
  if 48 ≤ c.toNat ∧ c.toNat ≤ 57 then some (c.toNat - 48)
  else if 97 ≤ c.toNat ∧ c.toNat ≤ 102 then some (c.toNat - 97 + 10)
  else if 65 ≤ c.toNat ∧ c.toNat ≤ 70 then some (c.toNat - 65 + 10)
  else none

/-- The loop of `QByteArray::fromHex`, run over the input from its last character to its
first: `low` holds a low nibble that still waits for its high nibble. -/
def fromHexLoop : List Char → Option Nat → QByteArray → QByteArray
  | [], none, acc => acc
  | [], some lo, acc => lo :: acc
  | c :: cs, low, acc =>
    match hexDigit c, low with
    | none, _ => fromHexLoop cs low acc
    | some d, none => fromHexLoop cs (some d) acc
    | some d, some lo => fromHexLoop cs none ((d * 16 + lo) :: acc)

/-- `QByteArray::fromHex`. -/
def QByteArray.fromHex (hex : String) : QByteArray :=
  fromHexLoop hex.data.reverse none []

/-- The two text conversions of Qt that `ble.cpp` calls, `QString::toUtf8` and
`QString::fromUtf8`.  They are library code: the embedding takes them as a parameter. -/
structure Utf8 where
  toUtf8 : QString → QByteArray
  fromUtf8 : QByteArray → QString

/-- A `QBluetoothUuid`, as its 128 bit value in text form. -/
structure QBluetoothUuid where
  value : String
  deriving DecidableEq, Repr

/-- `QBluetoothUuid::ImmediateAlert` (0x1802). -/
def QBluetoothUuid.ImmediateAlert : QBluetoothUuid := ⟨"00001802-0000-1000-8000-00805f9b34fb"⟩

/-- `QBluetoothUuid::AlertLevel` (0x2a06). -/
def QBluetoothUuid.AlertLevel : QBluetoothUuid := ⟨"00002a06-0000-1000-8000-00805f9b34fb"⟩

/-- `QBluetoothUuid::ClientCharacteristicConfiguration` (0x2902). -/
def QBluetoothUuid.ClientCharacteristicConfiguration : QBluetoothUuid :=
  ⟨"00002902-0000-1000-8000-00805f9b34fb"⟩

/-- The UUID of the wifi service (`wifiUuid()`). -/
def wifiUuid : QBluetoothUuid := ⟨"f9eb3fae-947a-4e5b-ab7c-c799e91ed780"⟩

/-- The UUID of the published wifi information (`wifiPublishedUuid()`). -/
def wifiPublishedUuid : QBluetoothUuid := ⟨"f9eb3fae-947a-4e5b-ab7c-c799e91ed781"⟩

/-- The UUID of the wifi request (`wifiRequestUuid()`). -/
def wifiRequestUuid : QBluetoothUuid := ⟨"f9eb3fae-947a-4e5b-ab7c-c799e91ed782"⟩

/-- A valid `QBluetoothDeviceInfo`, as a scan reports it.  The invalid, default constructed
one is `none` of `Option QBluetoothDeviceInfo`. -/
structure QBluetoothDeviceInfo where
  address : String
  name : QString
  deriving DecidableEq, Repr

/-- `QLowEnergyController::ControllerState`. -/
inductive ControllerState where
  | UnconnectedState
  | ConnectingState
  | ConnectedState
  | DiscoveringState
  | DiscoveredState
  | ClosingState
  | AdvertisingState
  deriving DecidableEq, Repr

/-- `QLowEnergyService::ServiceState`. -/
inductive ServiceState where
  | InvalidService
  | DiscoveryRequired
  | DiscoveringServices
  | ServiceDiscovered
  | LocalService
  deriving DecidableEq, Repr

/-- `QLowEnergyService::WriteMode`. -/
inductive WriteMode where
  | WriteWithResponse
  | WriteWithoutResponse
  | WriteSigned
  deriving DecidableEq, Repr

/-- A valid `QLowEnergyDescriptor`; the invalid one is `none`. -/
structure QLowEnergyDescriptor where
  uuid : QBluetoothUuid
  deriving DecidableEq, Repr

/-- A valid `QLowEnergyCharacteristic`; the invalid one is `none`. -/
structure QLowEnergyCharacteristic where
  uuid : QBluetoothUuid
  descriptors : List QLowEnergyDescriptor
  deriving DecidableEq, Repr

/-- `QLowEnergyCharacteristic::descriptor(uuid)`: the descriptor of that UUID, invalid
when there is none. -/
def QLowEnergyCharacteristic.descriptor (ch : QLowEnergyCharacteristic) (u : QBluetoothUuid) :
    Option QLowEnergyDescriptor :=
  ch.descriptors.find? (fun d => d.uuid == u)

/-- The slots `ble.cpp` connects to `QLowEnergyService::stateChanged`: the two lambdas of
`Ble::onService`. -/
inductive StateSlot where
  | powerState
  | wifiState
  deriving DecidableEq, Repr

/-- The slots `ble.cpp` connects to `characteristicChanged` and `characteristicRead`:
the lambdas that forward to `emitWifi`. -/
inductive ValueSlot where
  | emitWifi
  deriving DecidableEq, Repr

/-- A `QLowEnergyService` object: its state, the characteristics it knows, and the
connections made to its signals, in the order they were made. -/
structure QLowEnergyService where
  uuid : QBluetoothUuid
  state : ServiceState
  characteristics : List QLowEnergyCharacteristic
  stateChanged : List StateSlot
  characteristicChanged : List ValueSlot
  characteristicRead : List ValueSlot
  deriving DecidableEq, Repr

/-- `QLowEnergyService::characteristic(uuid)`: the first characteristic of that UUID,
invalid when there is none. -/
def QLowEnergyService.characteristic (s : QLowEnergyService) (u : QBluetoothUuid) :
    Option QLowEnergyCharacteristic :=
  s.characteristics.find? (fun c => c.uuid == u)

/-- A `QLowEnergyController` object: the device it was created for, its state, and the
characteristics of the remote services it has found so far. -/
structure QLowEnergyController where
  device : QBluetoothDeviceInfo
  state : ControllerState
  services : List (QBluetoothUuid × List QLowEnergyCharacteristic)
  deriving DecidableEq, Repr

/-- `QLowEnergyController::createCentral(dev)`: a new controller, unconnected. -/
def QLowEnergyController.createCentral (dev : QBluetoothDeviceInfo) : QLowEnergyController :=
  { device := dev, state := ControllerState.UnconnectedState, services := [] }

/-- `QLowEnergyController::connectToDevice()`.  `valid` is what the call finds of the local
adapter (`isValidLocalAdapter()`).  Without a usable adapter the call sets an error and
returns: no attempt starts and the state stays as it was.  With one, the call does nothing
unless the controller is unconnected, and an unconnected controller is in
`ConnectingState` when the call returns, before any signal of the controller. -/
def QLowEnergyController.connectToDevice (valid : Bool) (p : QLowEnergyController) :
    QLowEnergyController :=
  if !valid then p
  else if p.state == ControllerState.UnconnectedState then
    { p with state := ControllerState.ConnectingState }
  else p

/-- `QLowEnergyController::disconnectFromDevice()`: nothing for an unconnected controller;
any other controller is in `ClosingState` when the call returns. -/
def QLowEnergyController.disconnectFromDevice (p : QLowEnergyController) :
    QLowEnergyController :=
  if p.state == ControllerState.UnconnectedState then p
  else { p with state := ControllerState.ClosingState }

/-- `QLowEnergyController::discoverServices()`: nothing unless the controller is connected;
a connected controller is in `DiscoveringState` when the call returns. -/
def QLowEnergyController.discoverServices (p : QLowEnergyController) : QLowEnergyController :=
  if p.state == ControllerState.ConnectedState then
    { p with state := ControllerState.DiscoveringState }
  else p

/-- `QLowEnergyController::createServiceObject(u)`: a new service object for a service the
controller has found, null for any other UUID.  The new object has no connections. -/
def QLowEnergyController.createServiceObject (p : QLowEnergyController) (u : QBluetoothUuid) :
    Option QLowEnergyService :=
  (p.services.find? (fun s => s.1 == u)).map fun s =>
    { uuid := u, state := ServiceState.DiscoveryRequired, characteristics := s.2,
      stateChanged := [], characteristicChanged := [], characteristicRead := [] }

/-! ## Signals and requests -/

/-- The signals of `Ble`. -/
inductive Event where
  | devices (probes : List QString)
  | powerReady (en : Bool)
  | wifiReady (en : Bool)
  | wifiInfo (info : QString)
  deriving DecidableEq, Repr

/-- The service a request goes to: the object held by `power_` or by `wifi_`. -/
inductive Session where
  | power
  | wifi
  deriving DecidableEq, Repr

/-- The requests `ble.cpp` issues to the Qt Bluetooth objects. -/
inductive Request where
  | searchStop
  | searchStart
  | connectToDevice (dev : QBluetoothDeviceInfo)
  | disconnectFromDevice
  | discoverServices
  | discoverDetails (svc : Session)
  | writeCharacteristic (svc : Session) (ch : QLowEnergyCharacteristic) (value : QByteArray)
      (mode : WriteMode)
  | writeDescriptor (svc : Session) (de : QLowEnergyDescriptor) (value : QByteArray)
  | readCharacteristic (svc : Session) (ch : QLowEnergyCharacteristic)
  deriving DecidableEq, Repr

/-- One outward step of a call: a signal emitted or a request issued. -/
inductive Effect where
  | emit (e : Event)
  | call (r : Request)
  deriving DecidableEq, Repr

/-- The lambdas `Ble::onDiscoveryFinished` hands to `QTimer::singleShot`. -/
inductive TimerSlot where
  | powerDetails
  | wifiDetails
  deriving DecidableEq, Repr

/-! ## The class `Ble` -/

/-- The members of `Ble`, and what the Qt objects behind them read of the machine.
`search_` is the list `search_.discoveredDevices()` gives, `timers` the single shot timers
that have not fired yet, `adapterValid` whether the local Bluetooth adapter is usable. -/
structure Ble where
  adapterValid : Bool
  search_ : List QBluetoothDeviceInfo
  probes_ : List (QString × QBluetoothDeviceInfo)
  probe_ : Option QLowEnergyController
  power_ : Option QLowEnergyService
  wifi_ : Option QLowEnergyService
  timers : List TimerSlot
  deriving DecidableEq, Repr

/-- What a call gives: the returned value, the state after it and the trace of its
signals and requests, in order. -/
structure Result (α : Type) where
  ret : α
  state : Ble
  trace : List Effect
  deriving DecidableEq, Repr

/-- `Ble::Ble()`: nothing scanned, nothing registered, no controller, no service; the
local adapter is usable. -/
def Ble.init : Ble :=
  { adapterValid := true, search_ := [], probes_ := [], probe_ := none, power_ := none,
    wifi_ := none, timers := [] }

/-- The signals emitted in a trace, in order. -/
def events : List Effect → List Event
  | [] => []
  | Effect.emit e :: t => e :: events t
  | Effect.call _ :: t => events t

/-- The body of the loop of `Ble::searchComplete` for one device `d`: `acc` is the pair of
`probes_` and the local list `probes`. -/
def searchCompleteStep (acc : List (QString × QBluetoothDeviceInfo) × List QString)
    (d : QBluetoothDeviceInfo) : List (QString × QBluetoothDeviceInfo) × List QString :=
  if QString.startsWith d.name "CUS" then
    let name := QString.remove d.name "CUS-"
    (acc.1 ++ [(name, d)], acc.2 ++ [name])
  else acc

/-- `Ble::searchComplete`. -/
def Ble.searchComplete (b : Ble) : Result Unit :=
  let devs := b.search_
  let r := devs.foldl searchCompleteStep ([], [])
  { ret := (), state := { b with probes_ := r.1 }, trace := [Effect.emit (Event.devices r.2)] }

/-- The loop of `Ble::connectToProbe`: the device of the first entry of `probes_` under
`name`; the default constructed, invalid device when there is none. -/
def Ble.findProbe (name : QString) (b : Ble) : Option QBluetoothDeviceInfo :=
  (b.probes_.find? (fun p => p.1 == name)).map fun p => p.2

/-- The test `probe_ && probe_->state() != QLowEnergyController::UnconnectedState`. -/
def Ble.attempting (b : Ble) : Bool :=
  match b.probe_ with
  | some p => p.state != ControllerState.UnconnectedState
  | none => false

/-- `Ble::connectToProbe`. -/
def Ble.connectToProbe (name : QString) (b : Ble) : Result Bool :=
  if QString.isEmpty name then { ret := false, state := b, trace := [] }
  else
    match Ble.findProbe name b with
    | none => { ret := false, state := b, trace := [] }
    | some dev =>
      if Ble.attempting b then { ret := false, state := b, trace := [] }
      else
        { ret := true
          state := { b with
            probe_ := some (QLowEnergyController.connectToDevice b.adapterValid
              (QLowEnergyController.createCentral dev)) }
          trace := [Effect.emit (Event.powerReady false), Effect.emit (Event.wifiReady false),
                    Effect.call (Request.connectToDevice dev)] }

/-- `Ble::disconnectFromProbe`. -/
def Ble.disconnectFromProbe (b : Ble) : Result Bool :=
  match b.probe_ with
  | none => { ret := false, state := b, trace := [] }
  | some p =>
    if p.state != ControllerState.ConnectedState then { ret := false, state := b, trace := [] }
    else
      { ret := true, state := { b with probe_ := some p.disconnectFromDevice }
        trace := [Effect.call Request.disconnectFromDevice] }

/-- `Ble::search`.  Starting the agent empties its list of discovered devices. -/
def Ble.search (b : Ble) : Result Unit :=
  let r :=
    if b.probe_.isSome then Ble.disconnectFromProbe b else { ret := false, state := b, trace := [] }
  { ret := (), state := { r.state with search_ := [] }
    trace := r.trace ++ [Effect.call Request.searchStop, Effect.call Request.searchStart] }

/-- `Ble::onConnected`. -/
def Ble.onConnected (b : Ble) : Result Unit :=
  match b.probe_ with
  | some p =>
    { ret := (), state := { b with probe_ := some p.discoverServices }
      trace := [Effect.emit (Event.powerReady false), Effect.emit (Event.wifiReady false),
                Effect.call Request.discoverServices] }
  | none => { ret := (), state := b, trace := [] }

/-- The connection a lambda of `Ble::onService` gets on the `stateChanged` signal of a newly
created service object; a null object gets none. -/
def connectStateChanged (slot : StateSlot) (s : Option QLowEnergyService) :
    Option QLowEnergyService :=
  s.map fun o => { o with stateChanged := o.stateChanged ++ [slot] }

/-- `Ble::onService`. -/
def Ble.onService (u : QBluetoothUuid) (b : Ble) : Result Unit :=
  match b.probe_ with
  | none => { ret := (), state := b, trace := [] }
  | some p =>
    if u == QBluetoothUuid.ImmediateAlert then
      { ret := ()
        state := { b with
          power_ := connectStateChanged StateSlot.powerState (p.createServiceObject u) }
        trace := [] }
    else if u == wifiUuid then
      { ret := ()
        state := { b with
          wifi_ := connectStateChanged StateSlot.wifiState (p.createServiceObject u) }
        trace := [] }
    else { ret := (), state := b, trace := [] }

/-- `Ble::onDiscoveryFinished`: two single shot timers of zero delay. -/
def Ble.onDiscoveryFinished (b : Ble) : Result Unit :=
  { ret := ()
    state := { b with timers := b.timers ++ [TimerSlot.powerDetails, TimerSlot.wifiDetails] }
    trace := [] }

/-- The lambda `Ble::onService` connects to `stateChanged` of the power service. -/
def Ble.onPowerState (s : ServiceState) (b : Ble) : Result Unit :=
  if s == ServiceState.ServiceDiscovered then
    { ret := (), state := b, trace := [Effect.emit (Event.powerReady true)] }
  else { ret := (), state := b, trace := [] }

/-- The lambda `emitWifi`. -/
def Ble.emitWifi (qt : Utf8) (ch : QLowEnergyCharacteristic) (v : QByteArray) (b : Ble) :
    Result Unit :=
  let uid := ch.uuid
  if uid == wifiPublishedUuid && !v.isEmpty then
    { ret := (), state := b, trace := [Effect.emit (Event.wifiInfo (qt.fromUtf8 v))] }
  else { ret := (), state := b, trace := [] }

/-- The lambda `Ble::onService` connects to `stateChanged` of the wifi service.  It runs
on a signal of the object `wifi_` holds, so there is nothing to run without that object. -/
def Ble.onWifiState (s : ServiceState) (b : Ble) : Result Unit :=
  match b.wifi_ with
  | none => { ret := (), state := b, trace := [] }
  | some w =>
    let w1 := { w with
      characteristicChanged := w.characteristicChanged ++ [ValueSlot.emitWifi] }
    let w2 := { w1 with characteristicRead := w1.characteristicRead ++ [ValueSlot.emitWifi] }
    let b2 := { b with wifi_ := some w2 }
    if s == ServiceState.ServiceDiscovered then
      let ready := [Effect.emit (Event.wifiReady true)]
      match w2.characteristic wifiPublishedUuid with
      | some ch =>
        let subscribe :=
          match ch.descriptor QBluetoothUuid.ClientCharacteristicConfiguration with
          | some de =>
            [Effect.call (Request.writeDescriptor Session.wifi de (QByteArray.fromHex "0100"))]
          | none => []
        { ret := (), state := b2
          trace := ready ++ subscribe ++ [Effect.call (Request.readCharacteristic Session.wifi ch)] }
      | none => { ret := (), state := b2, trace := ready }
    else { ret := (), state := b2, trace := [] }

/-- `Ble::power`. -/
def Ble.power (en : Bool) (b : Ble) : Result Bool :=
  match b.power_ with
  | none => { ret := false, state := b, trace := [] }
  | some p =>
    if p.state != ServiceState.ServiceDiscovered then { ret := false, state := b, trace := [] }
    else
      match p.characteristic QBluetoothUuid.AlertLevel with
      | none => { ret := false, state := b, trace := [] }
      | some ch =>
        { ret := true, state := b
          trace := [Effect.call (Request.writeCharacteristic Session.power ch
            (QByteArray.fromHex (if en then "02" else "01")) WriteMode.WriteWithoutResponse)] }

/-- `Ble::requestWifi`.  The write takes the default mode of
`QLowEnergyService::writeCharacteristic`, `WriteWithResponse`. -/
def Ble.requestWifi (qt : Utf8) (info : QString) (b : Ble) : Result Bool :=
  match b.wifi_ with
  | none => { ret := false, state := b, trace := [] }
  | some w =>
    if w.state != ServiceState.ServiceDiscovered || QString.isEmpty info then
      { ret := false, state := b, trace := [] }
    else
      match w.characteristic wifiRequestUuid with
      | none => { ret := false, state := b, trace := [] }
      | some ch =>
        { ret := true, state := b
          trace := [Effect.call (Request.writeCharacteristic Session.wifi ch
            (qt.toUtf8 info) WriteMode.WriteWithResponse)] }

/-! ## Signal delivery -/

/-- One slot after another: the second runs in the state the first left, the traces
follow each other. -/
def Result.andThen (r : Result Unit) (f : Ble → Result Unit) : Result Unit :=
  let r2 := f r.state
  { ret := (), state := r2.state, trace := r.trace ++ r2.trace }

/-- The slot behind a connection to `stateChanged`. -/
def Ble.runStateSlot (s : ServiceState) (b : Ble) : StateSlot → Result Unit
  | StateSlot.powerState => Ble.onPowerState s b
  | StateSlot.wifiState => Ble.onWifiState s b

/-- The slot behind a connection to `characteristicChanged` or `characteristicRead`. -/
def Ble.runValueSlot (qt : Utf8) (ch : QLowEnergyCharacteristic) (v : QByteArray) (b : Ble) :
    ValueSlot → Result Unit
  | ValueSlot.emitWifi => Ble.emitWifi qt ch v b

/-- Emission of `stateChanged(s)`: every connection is served, in the order the
connections were made. -/
def Ble.emitStateChanged (s : ServiceState) (slots : List StateSlot) (b : Ble) : Result Unit :=
  slots.foldl (fun r slot => r.andThen fun b1 => Ble.runStateSlot s b1 slot)
    { ret := (), state := b, trace := [] }

/-- Emission of `characteristicChanged(ch, v)` or `characteristicRead(ch, v)` to the
connections `slots`. -/
def Ble.emitValue (qt : Utf8) (ch : QLowEnergyCharacteristic) (v : QByteArray)
    (slots : List ValueSlot) (b : Ble) : Result Unit :=
  slots.foldl (fun r slot => r.andThen fun b1 => Ble.runValueSlot qt ch v b1 slot)
    { ret := (), state := b, trace := [] }

/-- The power service goes to state `s` (`QLowEnergyServicePrivate::setState`): nothing
when it is in that state already, else the state is set and `stateChanged(s)` emitted. -/
def Ble.powerStateChanged (s : ServiceState) (b : Ble) : Result Unit :=
  match b.power_ with
  | none => { ret := (), state := b, trace := [] }
  | some p =>
    if p.state == s then { ret := (), state := b, trace := [] }
    else Ble.emitStateChanged s p.stateChanged { b with power_ := some { p with state := s } }

/-- The wifi service goes to state `s`. -/
def Ble.wifiStateChanged (s : ServiceState) (b : Ble) : Result Unit :=
  match b.wifi_ with
  | none => { ret := (), state := b, trace := [] }
  | some w =>
    if w.state == s then { ret := (), state := b, trace := [] }
    else Ble.emitStateChanged s w.stateChanged { b with wifi_ := some { w with state := s } }

/-- The wifi service delivers a notification: `characteristicChanged(ch, v)`. -/
def Ble.wifiCharacteristicChanged (qt : Utf8) (ch : QLowEnergyCharacteristic) (v : QByteArray)
    (b : Ble) : Result Unit :=
  match b.wifi_ with
  | none => { ret := (), state := b, trace := [] }
  | some w => Ble.emitValue qt ch v w.characteristicChanged b

/-- The wifi service completes a read: `characteristicRead(ch, v)`. -/
def Ble.wifiCharacteristicRead (qt : Utf8) (ch : QLowEnergyCharacteristic) (v : QByteArray)
    (b : Ble) : Result Unit :=
  match b.wifi_ with
  | none => { ret := (), state := b, trace := [] }
  | some w => Ble.emitValue qt ch v w.characteristicRead b

/-- `QLowEnergyService::discoverDetails()` on the power service: a service in
`DiscoveryRequired` is in `DiscoveringServices` when the call returns, and has emitted
`stateChanged`; on a service in any other state the call starts nothing. -/
def Ble.powerDiscoverDetails (b : Ble) : Result Unit :=
  match b.power_ with
  | none => { ret := (), state := b, trace := [] }
  | some p =>
    if p.state == ServiceState.DiscoveryRequired then
      Ble.powerStateChanged ServiceState.DiscoveringServices b
    else { ret := (), state := b, trace := [] }

/-- `QLowEnergyService::discoverDetails()` on the wifi service. -/
def Ble.wifiDiscoverDetails (b : Ble) : Result Unit :=
  match b.wifi_ with
  | none => { ret := (), state := b, trace := [] }
  | some w =>
    if w.state == ServiceState.DiscoveryRequired then
      Ble.wifiStateChanged ServiceState.DiscoveringServices b
    else { ret := (), state := b, trace := [] }

/-- The lambdas of `Ble::onDiscoveryFinished`, run when their timer fires. -/
def Ble.onTimer (t : TimerSlot) (b : Ble) : Result Unit :=
  match t with
  | TimerSlot.powerDetails =>
    if b.power_.isSome then
      Result.andThen
        { ret := (), state := b, trace := [Effect.call (Request.discoverDetails Session.power)] }
        Ble.powerDiscoverDetails
    else { ret := (), state := b, trace := [] }
  | TimerSlot.wifiDetails =>
    if b.wifi_.isSome then
      Result.andThen
        { ret := (), state := b, trace := [Effect.call (Request.discoverDetails Session.wifi)] }
        Ble.wifiDiscoverDetails
    else { ret := (), state := b, trace := [] }

/-! ## The controller as a transition system -/

/-- Everything that can happen to a `Ble` object: a call of a public member function, a
signal of a Qt Bluetooth object that `ble.cpp` has a slot for, or a change inside a Qt
Bluetooth object that `ble.cpp` reads later. -/
inductive Action where
  | search
  | connectToProbe (name : QString)
  | disconnectFromProbe
  | power (en : Bool)
  | requestWifi (info : QString)
  | deviceDiscovered (d : QBluetoothDeviceInfo)
  | searchFinished
  | adapterChanged (valid : Bool)
  | controllerState (s : ControllerState)
  | connected
  | serviceDiscovered (u : QBluetoothUuid) (chars : List QLowEnergyCharacteristic)
  | discoveryFinished
  | timeout
  | powerStateChanged (s : ServiceState)
  | wifiStateChanged (s : ServiceState)
  | wifiCharacteristicChanged (ch : QLowEnergyCharacteristic) (v : QByteArray)
  | wifiCharacteristicRead (ch : QLowEnergyCharacteristic) (v : QByteArray)

/-- A `Result` without its returned value. -/
def Result.forget {α : Type} (r : Result α) : Result Unit :=
  { ret := (), state := r.state, trace := r.trace }

/-- One step of the controller. -/
def Ble.step (qt : Utf8) (b : Ble) : Action → Result Unit
  | Action.search => Ble.search b
  | Action.connectToProbe name => (Ble.connectToProbe name b).forget
  | Action.disconnectFromProbe => (Ble.disconnectFromProbe b).forget
  | Action.power en => (Ble.power en b).forget
  | Action.requestWifi info => (Ble.requestWifi qt info b).forget
  | Action.deviceDiscovered d =>
    { ret := (), state := { b with search_ := b.search_ ++ [d] }, trace := [] }
  | Action.searchFinished => Ble.searchComplete b
  | Action.adapterChanged valid =>
    { ret := (), state := { b with adapterValid := valid }, trace := [] }
  | Action.controllerState s =>
    { ret := (), state := { b with probe_ := b.probe_.map fun p => { p with state := s } }
      trace := [] }
  | Action.connected =>
    Ble.onConnected
      { b with probe_ := b.probe_.map fun p => { p with state := ControllerState.ConnectedState } }
  | Action.serviceDiscovered u chars =>
    Ble.onService u
      { b with probe_ := b.probe_.map fun p => { p with services := p.services ++ [(u, chars)] } }
  | Action.discoveryFinished =>
    Ble.onDiscoveryFinished
      { b with probe_ := b.probe_.map fun p => { p with state := ControllerState.DiscoveredState } }
  | Action.timeout =>
    match b.timers with
    | [] => { ret := (), state := b, trace := [] }
    | t :: ts => Ble.onTimer t { b with timers := ts }
  | Action.powerStateChanged s => Ble.powerStateChanged s b
  | Action.wifiStateChanged s => Ble.wifiStateChanged s b
  | Action.wifiCharacteristicChanged ch v => Ble.wifiCharacteristicChanged qt ch v b
  | Action.wifiCharacteristicRead ch v => Ble.wifiCharacteristicRead qt ch v b

/-- A run: the steps of a list of actions one after the other, with the whole trace. -/
def Ble.run (qt : Utf8) (b : Ble) (as : List Action) : Result Unit :=
  as.foldl (fun r a => r.andThen fun b1 => Ble.step qt b1 a) { ret := (), state := b, trace := [] }

/-! ## What a listener sees -/

/-- The two readiness flags a listener of `powerReady` and `wifiReady` keeps: the last
value each signal carried. -/
structure Readiness where
  power : Bool
  wifi : Bool
  deriving DecidableEq, Repr

/-- The flags after one more signal. -/
def Readiness.see (f : Readiness) : Event → Readiness
  | Event.powerReady en => { f with power := en }
  | Event.wifiReady en => { f with wifi := en }
  | _ => f

/-- The flags after the signals of a trace. -/
def Readiness.after (f : Readiness) (t : List Effect) : Readiness :=
  (events t).foldl Readiness.see f

/-- The result of a call that refuses: false, nothing emitted or requested, nothing changed. -/
def Ble.refused (b : Ble) : Result Bool := { ret := false, state := b, trace := [] }

/-- The result of an accepted `connectToProbe` for the device `dev`. -/
def Ble.accepted (dev : QBluetoothDeviceInfo) (b : Ble) : Result Bool :=
  { ret := true
    state := { b with
      probe_ := some (QLowEnergyController.connectToDevice b.adapterValid
        (QLowEnergyController.createCentral dev)) }
    trace := [Effect.emit (Event.powerReady false), Effect.emit (Event.wifiReady false),
              Effect.call (Request.connectToDevice dev)] }

/-! ## A scan, a registry and a connection attempt to try the statements on -/

/-- A probe as a scan reports it. -/
def probeP100 : QBluetoothDeviceInfo := { address := "00:11:22:33:44:55", name := "CUS-P100" }

/-- The state after a scan that found `probeP100`. -/
def Ble.scanned : Ble := (Ble.searchComplete { Ble.init with search_ := [probeP100] }).state

/-- The state right after `connectToProbe("P100")` in `Ble.scanned`. -/
def Ble.connecting : Ble := (Ble.connectToProbe "P100" Ble.scanned).state

/-- The two conversions on ASCII text, where UTF-8 has one byte for each character. -/
def Utf8.ascii : Utf8 :=
  { toUtf8 := fun s => s.data.map Char.toNat
    fromUtf8 := fun v => ⟨v.map Char.ofNat⟩ }

/-- An alert level characteristic. -/
def alertLevel : QLowEnergyCharacteristic :=
  { uuid := QBluetoothUuid.AlertLevel, descriptors := [] }

/-- A published wifi information characteristic, with its configuration descriptor. -/
def wifiPublished : QLowEnergyCharacteristic :=
  { uuid := wifiPublishedUuid
    descriptors := [{ uuid := QBluetoothUuid.ClientCharacteristicConfiguration }] }

/-- A wifi request characteristic. -/
def wifiRequest : QLowEnergyCharacteristic :=
  { uuid := wifiRequestUuid, descriptors := [] }

/-- A run from a fresh object: a scan finds `probeP100`, `connectToProbe("P100")` is called,
the link comes up, both services are found, the discovery finishes and both timers
fire. -/
def discovery : List Action :=
  [Action.search, Action.deviceDiscovered probeP100, Action.searchFinished,
   Action.connectToProbe "P100", Action.connected,
   Action.serviceDiscovered QBluetoothUuid.ImmediateAlert [alertLevel],
   Action.serviceDiscovered wifiUuid [wifiPublished, wifiRequest],
   Action.discoveryFinished, Action.timeout, Action.timeout]

/-- The state after the run `discovery`: the details of both services are being
discovered. -/
def Ble.discovering : Ble := (Ble.run Utf8.ascii Ble.init discovery).state

/-- The state after both services of `Ble.discovering` reached `ServiceDiscovered`. -/
def Ble.ready : Ble :=
  (Ble.run Utf8.ascii Ble.discovering
    [Action.powerStateChanged ServiceState.ServiceDiscovered,
     Action.wifiStateChanged ServiceState.ServiceDiscovered]).state

/-- A device that advertises the family mark and nothing after it. -/
def probeUnnamed : QBluetoothDeviceInfo := { address := "00:11:22:33:44:66", name := "CUS-" }

/-- The state after a scan that found `probeUnnamed`. -/
def Ble.scannedUnnamed : Ble :=
  (Ble.searchComplete { Ble.init with search_ := [probeUnnamed] }).state

/-- The bytes of the text "SSID=Home". -/
def ssidHome : QByteArray := [83, 83, 73, 68, 61, 72, 111, 109, 101]

/-- A device whose name has the family mark a second time, further in. -/
def probeInner : QBluetoothDeviceInfo := { address := "00:11:22:33:44:77", name := "CUS-L7-CUS-A" }

/-- A device of another make whose name starts with the letters of the family mark. -/
def probeCustom : QBluetoothDeviceInfo := { address := "00:11:22:33:44:88", name := "CUSTOM" }

/-- The connections to `stateChanged` are the ones `Ble::onService` makes: the power lambda
on the service `power_` holds, the wifi lambda on the service `wifi_` holds. -/
def Ble.wired (b : Ble) : Prop :=
  (∀ p, b.power_ = some p → ∀ slot ∈ p.stateChanged, slot = StateSlot.powerState) ∧
  (∀ w, b.wifi_ = some w → ∀ slot ∈ w.stateChanged, slot = StateSlot.wifiState)

/-! ## The signals of the controller and the loss of the link -/

/-- `QLowEnergyController::Error`. -/
inductive ControllerError where
  | NoError
  | UnknownError
  | UnknownRemoteDeviceError
  | NetworkError
  | InvalidBluetoothAdapterError
  | ConnectionError
  | AdvertisingError
  | RemoteHostClosedError
  | AuthorizationError
  deriving DecidableEq, Repr

/-- The signals of `QLowEnergyController`. -/
inductive ControllerSignal where
  | connected
  | disconnected
  | stateChanged (s : ControllerState)
  | error (e : ControllerError)
  | serviceDiscovered (u : QBluetoothUuid)
  | discoveryFinished
  deriving DecidableEq, Repr

/-- The slot behind each signal of the controller `probe_` holds: the three connections
`Ble::connectToProbe` makes on a new controller.  `ble.cpp` connects nothing to the other
signals. -/
def Ble.controllerSlot : ControllerSignal → Option (Ble → Result Unit)
  | ControllerSignal.connected => some Ble.onConnected
  | ControllerSignal.serviceDiscovered u => some (Ble.onService u)
  | ControllerSignal.discoveryFinished => some Ble.onDiscoveryFinished
  | ControllerSignal.disconnected => none
  | ControllerSignal.stateChanged _ => none
  | ControllerSignal.error _ => none

/-- Emission of a signal by the controller: its slot runs, if it has one. -/
def Ble.controllerSignal (sig : ControllerSignal) (b : Ble) : Result Unit :=
  match Ble.controllerSlot sig with
  | some slot => slot b
  | none => { ret := (), state := b, trace := [] }

/-- The controller goes to state `s` and emits `stateChanged(s)`. -/
def Ble.controllerStateChanged (s : ControllerState) (b : Ble) : Result Unit :=
  Ble.controllerSignal (ControllerSignal.stateChanged s)
    { b with probe_ := b.probe_.map fun p => { p with state := s } }

/-- The adapter reports the failure `e` of the link (`RemoteHostClosedError` when the link
is lost).  What Qt does then: a service that loses the connection to its device becomes
invalid (`InvalidService`, with `stateChanged`); the controller emits `error(e)`, goes to
`UnconnectedState` and emits `disconnected()`. -/
def Ble.adapterFailure (e : ControllerError) (b : Ble) : Result Unit :=
  ((((Ble.powerStateChanged ServiceState.InvalidService b).andThen
      (Ble.wifiStateChanged ServiceState.InvalidService)).andThen
      (Ble.controllerSignal (ControllerSignal.error e))).andThen
      (Ble.controllerStateChanged ControllerState.UnconnectedState)).andThen
      (Ble.controllerSignal ControllerSignal.disconnected)

/-- The state after the link of `Ble.ready` was lost. -/
def Ble.lost : Ble := (Ble.adapterFailure ControllerError.RemoteHostClosedError Ble.ready).state

/-- The state of `Ble.connecting` once the controller is in `ConnectedState`, before its
`connected()` signal is delivered. -/
def Ble.linked : Ble :=
  (Ble.step Utf8.ascii Ble.connecting (Action.controllerState ControllerState.ConnectedState)).state

/-- The state of `Ble.scanned` on a machine whose Bluetooth adapter is not usable. -/
def Ble.scannedNoAdapter : Ble :=
  (Ble.step Utf8.ascii Ble.scanned (Action.adapterChanged false)).state

/-! ## Lemmas -/

theorem searchComplete_foldl (devs : List QBluetoothDeviceInfo)
    (acc : List (QString × QBluetoothDeviceInfo) × List QString) :
    devs.foldl searchCompleteStep acc =
      (acc.1 ++ (devs.filter fun d => QString.startsWith d.name "CUS").map
          (fun d => (QString.remove d.name "CUS-", d)),
       acc.2 ++ (devs.filter fun d => QString.startsWith d.name "CUS").map
          (fun d => QString.remove d.name "CUS-")) := by
  induction devs generalizing acc with
  | nil => simp
  | cons d ds ih =>
    rw [List.foldl_cons, ih]
    by_cases h : QString.startsWith d.name "CUS" = true
    · simp [searchCompleteStep, h, List.filter_cons]
    · simp [searchCompleteStep, h, List.filter_cons]

/-- The three ways `connectToProbe` refuses, and the one way it accepts. -/
theorem connectToProbe_cases (name : QString) (b : Ble) :
    (Ble.connectToProbe name b = Ble.refused b ∧
      (QString.isEmpty name = true ∨ Ble.findProbe name b = none ∨ Ble.attempting b = true)) ∨
    (∃ dev, QString.isEmpty name = false ∧ Ble.findProbe name b = some dev ∧
      Ble.attempting b = false ∧ Ble.connectToProbe name b = Ble.accepted dev b) := by
  unfold Ble.connectToProbe Ble.refused Ble.accepted
  by_cases h1 : QString.isEmpty name = true
  · simp [h1]
  · cases h2 : Ble.findProbe name b with
    | none => simp [h1]
    | some dev =>
      by_cases h3 : Ble.attempting b = true
      · simp [h1, h3]
      · simp [h1, h3]

theorem connectToProbe_attempting (name : QString) (b : Ble) (h : Ble.attempting b = true) :
    Ble.connectToProbe name b = Ble.refused b := by
  rcases connectToProbe_cases name b with ⟨h1, _⟩ | ⟨dev, _, _, h3, _⟩
  · exact h1
  · rw [h] at h3; cases h3

theorem isEmpty_iff (s : QString) : QString.isEmpty s = true ↔ s = "" := by
  unfold QString.isEmpty
  rw [String.ext_iff, List.isEmpty_iff]

theorem findProbe_eq_none (name : QString) (b : Ble) :
    Ble.findProbe name b = none ↔ ∀ p ∈ b.probes_, p.1 ≠ name := by
  simp [Ble.findProbe, List.find?_eq_none]

theorem attempting_eq_false (b : Ble)
    (h : b.probe_ = none ∨
      ∃ p, b.probe_ = some p ∧ p.state = ControllerState.UnconnectedState) :
    Ble.attempting b = false := by
  unfold Ble.attempting
  rcases h with h | ⟨p, h, hs⟩
  · rw [h]
  · rw [h]; simp [hs]

theorem characteristic_uuid (s : QLowEnergyService) (u : QBluetoothUuid)
    (ch : QLowEnergyCharacteristic) (h : s.characteristic u = some ch) : ch.uuid = u := by
  unfold QLowEnergyService.characteristic at h
  simpa using List.find?_some h

theorem removeLoop_skip (pat : List Char) (k : Nat) (l : List Char) :
    QString.removeLoop pat k l = QString.removeLoop pat 0 (l.drop k) := by
  induction k generalizing l with
  | zero => simp
  | succ k ih =>
    cases l with
    | nil => simp [QString.removeLoop]
    | cons c cs => simp [QString.removeLoop, ih cs]

theorem removeLoop_pat_append (pat s : List Char) (hp : pat ≠ []) :
    QString.removeLoop pat 0 (pat ++ s) = QString.removeLoop pat 0 s := by
  cases pat with
  | nil => exact absurd rfl hp
  | cons c ps =>
    have h : (c :: ps).isPrefixOf (c :: (ps ++ s)) = true := by
      simp [List.isPrefixOf]
    rw [List.cons_append, QString.removeLoop, if_pos h, removeLoop_skip]
    simp

theorem removeLoop_no_occurrence (pat l : List Char) (h : ¬ pat <:+: l) :
    QString.removeLoop pat 0 l = l := by
  induction l with
  | nil => simp [QString.removeLoop]
  | cons c cs ih =>
    have h1 : pat.isPrefixOf (c :: cs) = false := by
      cases hx : pat.isPrefixOf (c :: cs) with
      | false => rfl
      | true => exact absurd (List.isPrefixOf_iff_prefix.1 hx).isInfix h
    have h2 : ¬ pat <:+: cs := fun hc => h (hc.trans (List.suffix_cons c cs).isInfix)
    rw [QString.removeLoop, h1]
    simp [ih h2]

/-- The part of C5 that the code meets: a device named "CUS-" followed by a text `s` in
which "CUS-" does not occur is retained, under the name `s`. -/
theorem searchComplete_strips_mark (b : Ble) (address : String) (s : QString)
    (hs : ¬ "CUS-".data <:+: s.data) (hb : b.search_ = [⟨address, "CUS-" ++ s⟩]) :
    (Ble.searchComplete b).state.probes_ = [(s, ⟨address, "CUS-" ++ s⟩)] := by
  have h1 : QString.startsWith ("CUS-" ++ s) "CUS" = true := by
    simp [QString.startsWith, List.isPrefixOf]
  have h2 : QString.remove ("CUS-" ++ s) "CUS-" = s := by
    unfold QString.remove
    rw [if_neg (by decide), String.data_append, removeLoop_pat_append _ _ (by decide),
      removeLoop_no_occurrence _ _ hs]
  simp [Ble.searchComplete, hb, searchCompleteStep, h1, h2]

theorem foldl_andThen_trace_mem {α : Type} (f : Ble → α → Result Unit) (slots : List α)
    (r : Result Unit) (e : Effect)
    (h : e ∈ (slots.foldl (fun r slot => r.andThen fun b1 => f b1 slot) r).trace) :
    e ∈ r.trace ∨ ∃ slot ∈ slots, ∃ b1, e ∈ (f b1 slot).trace := by
  induction slots generalizing r with
  | nil => exact Or.inl h
  | cons slot rest ih =>
    rw [List.foldl_cons] at h
    rcases ih _ h with h1 | ⟨sl, hsl, b1, h2⟩
    · simp only [Result.andThen, List.mem_append] at h1
      rcases h1 with h1 | h1
      · exact Or.inl h1
      · exact Or.inr ⟨slot, List.mem_cons_self _ _, r.state, h1⟩
    · exact Or.inr ⟨sl, List.mem_cons_of_mem _ hsl, b1, h2⟩

theorem emitStateChanged_trace_mem (s : ServiceState) (slots : List StateSlot) (b : Ble)
    (e : Effect) (h : e ∈ (Ble.emitStateChanged s slots b).trace) :
    ∃ slot ∈ slots, ∃ b1, e ∈ (Ble.runStateSlot s b1 slot).trace := by
  rcases foldl_andThen_trace_mem (fun b1 slot => Ble.runStateSlot s b1 slot) slots _ e h with
    h1 | h1
  · cases h1
  · exact h1

theorem onPowerState_trace_mem (s : ServiceState) (b : Ble) (e : Effect)
    (h : e ∈ (Ble.onPowerState s b).trace) :
    e = Effect.emit (Event.powerReady true) ∧ s = ServiceState.ServiceDiscovered := by
  unfold Ble.onPowerState at h
  by_cases hs : s = ServiceState.ServiceDiscovered
  · simpa [hs] using h
  · simp [hs] at h

theorem onWifiState_trace_mem (s : ServiceState) (b : Ble) (e : Effect)
    (h : e ∈ (Ble.onWifiState s b).trace) :
    e ≠ Effect.emit (Event.powerReady true) ∧ s = ServiceState.ServiceDiscovered := by
  unfold Ble.onWifiState at h
  cases hw : b.wifi_ with
  | none => simp [hw] at h
  | some w =>
    by_cases hs : s = ServiceState.ServiceDiscovered
    · refine ⟨?_, hs⟩
      rw [hw] at h
      simp only [hs, beq_self_eq_true, if_true] at h
      split at h
      · split at h
        · simp at h
          rcases h with h | h | h <;> simp [h]
        · simp at h
          rcases h with h | h <;> simp [h]
      · simp at h
        simp [h]
    · simp [hw, hs] at h

theorem emitValue_trace_mem (qt : Utf8) (ch : QLowEnergyCharacteristic) (v : QByteArray)
    (slots : List ValueSlot) (b : Ble) (e : Effect)
    (h : e ∈ (Ble.emitValue qt ch v slots b).trace) :
    e = Effect.emit (Event.wifiInfo (qt.fromUtf8 v)) := by
  rcases foldl_andThen_trace_mem (fun b1 slot => Ble.runValueSlot qt ch v b1 slot) slots _ e h
    with h1 | ⟨slot, _, b1, h1⟩
  · cases h1
  · cases slot
    unfold Ble.runValueSlot Ble.emitWifi at h1
    by_cases hc : (ch.uuid == wifiPublishedUuid && !v.isEmpty) = true
    · simpa only [hc, if_true, List.mem_singleton] using h1
    · simp only [hc, if_false] at h1
      cases h1

theorem powerStateChanged_trace_mem (s : ServiceState) (b : Ble) (e : Effect)
    (hw : Ble.wired b) (h : e ∈ (Ble.powerStateChanged s b).trace) :
    e = Effect.emit (Event.powerReady true) ∧ s = ServiceState.ServiceDiscovered := by
  unfold Ble.powerStateChanged at h
  cases hp : b.power_ with
  | none => simp [hp] at h
  | some p =>
    simp only [hp] at h
    split at h
    · cases h
    · obtain ⟨slot, hslot, b1, h1⟩ := emitStateChanged_trace_mem _ _ _ _ h
      rw [hw.1 p hp slot hslot] at h1
      exact onPowerState_trace_mem s b1 e h1

theorem wifiStateChanged_trace_mem (s : ServiceState) (b : Ble) (e : Effect)
    (hw : Ble.wired b) (h : e ∈ (Ble.wifiStateChanged s b).trace) :
    e ≠ Effect.emit (Event.powerReady true) ∧ s = ServiceState.ServiceDiscovered := by
  unfold Ble.wifiStateChanged at h
  cases hp : b.wifi_ with
  | none => simp [hp] at h
  | some w =>
    simp only [hp] at h
    split at h
    · cases h
    · obtain ⟨slot, hslot, b1, h1⟩ := emitStateChanged_trace_mem _ _ _ _ h
      rw [hw.2 w hp slot hslot] at h1
      exact onWifiState_trace_mem s b1 e h1

theorem onTimer_trace_mem (t : TimerSlot) (b : Ble) (e : Effect) (hw : Ble.wired b)
    (h : e ∈ (Ble.onTimer t b).trace) : ∃ svc, e = Effect.call (Request.discoverDetails svc) := by
  cases t with
  | powerDetails =>
    unfold Ble.onTimer at h
    simp only at h
    split at h
    · simp only [Result.andThen, List.mem_append, List.mem_singleton] at h
      rcases h with h | h
      · exact ⟨_, h⟩
      · unfold Ble.powerDiscoverDetails at h
        split at h
        · cases h
        · split at h
          · have := (powerStateChanged_trace_mem _ _ _ hw h).2
            cases this
          · cases h
    · cases h
  | wifiDetails =>
    unfold Ble.onTimer at h
    simp only at h
    split at h
    · simp only [Result.andThen, List.mem_append, List.mem_singleton] at h
      rcases h with h | h
      · exact ⟨_, h⟩
      · unfold Ble.wifiDiscoverDetails at h
        split at h
        · cases h
        · split at h
          · have := (wifiStateChanged_trace_mem _ _ _ hw h).2
            cases this
          · cases h
    · cases h

/-- In a state with the connections of `Ble::onService`, a step emits `powerReady(true)`
only if it is the change of the power service to `ServiceDiscovered`, and
`wifiReady(true)` only if it is the change of the wifi service to `ServiceDiscovered`. -/
theorem ready_only_on_discovered (qt : Utf8) (b : Ble) (a : Action) (hw : Ble.wired b) :
    (Effect.emit (Event.powerReady true) ∈ (Ble.step qt b a).trace →
      a = Action.powerStateChanged ServiceState.ServiceDiscovered) ∧
    (Effect.emit (Event.wifiReady true) ∈ (Ble.step qt b a).trace →
      a = Action.wifiStateChanged ServiceState.ServiceDiscovered) := by
  cases a with
  | search =>
    constructor <;> intro h <;>
    · simp only [Ble.step, Ble.search] at h
      split at h
      · unfold Ble.disconnectFromProbe at h
        split at h
        · simp at h
        · split at h <;> simp at h
      · simp at h
  | connectToProbe name =>
    constructor <;> intro h <;>
    · rcases connectToProbe_cases name b with ⟨h1, _⟩ | ⟨dev, _, _, _, h4⟩
      · simp [Ble.step, Result.forget, h1, Ble.refused] at h
      · simp [Ble.step, Result.forget, h4, Ble.accepted] at h
  | disconnectFromProbe =>
    constructor <;> intro h <;>
    · simp only [Ble.step, Result.forget, Ble.disconnectFromProbe] at h
      split at h
      · simp at h
      · split at h <;> simp at h
  | power en =>
    constructor <;> intro h <;>
    · simp only [Ble.step, Result.forget, Ble.power] at h
      split at h
      · simp at h
      · split at h
        · simp at h
        · split at h <;> simp at h
  | requestWifi info =>
    constructor <;> intro h <;>
    · simp only [Ble.step, Result.forget, Ble.requestWifi] at h
      split at h
      · simp at h
      · split at h
        · simp at h
        · split at h <;> simp at h
  | deviceDiscovered d => constructor <;> intro h <;> simp [Ble.step] at h
  | searchFinished => constructor <;> intro h <;> simp [Ble.step, Ble.searchComplete] at h
  | adapterChanged valid => constructor <;> intro h <;> simp [Ble.step] at h
  | controllerState s => constructor <;> intro h <;> simp [Ble.step] at h
  | connected =>
    constructor <;> intro h <;>
    · simp only [Ble.step, Ble.onConnected] at h
      split at h <;> simp at h
  | serviceDiscovered u chars =>
    constructor <;> intro h <;>
    · simp only [Ble.step, Ble.onService] at h
      split at h
      · simp at h
      · split at h
        · simp at h
        · split at h <;> simp at h
  | discoveryFinished =>
    constructor <;> intro h <;> simp [Ble.step, Ble.onDiscoveryFinished] at h
  | timeout =>
    constructor <;> intro h <;>
    · simp only [Ble.step] at h
      split at h
      · simp at h
      · rename_i t ts _
        obtain ⟨svc, h1⟩ :=
          onTimer_trace_mem t _ _ (show Ble.wired { b with timers := ts } from hw) h
        cases h1
  | powerStateChanged s =>
    constructor
    · intro h
      rw [(powerStateChanged_trace_mem s b _ hw h).2]
    · intro h
      have := (powerStateChanged_trace_mem s b _ hw h).1
      cases this
  | wifiStateChanged s =>
    constructor
    · intro h
      exact absurd rfl (wifiStateChanged_trace_mem s b _ hw h).1
    · intro h
      rw [(wifiStateChanged_trace_mem s b _ hw h).2]
  | wifiCharacteristicChanged ch v =>
    constructor <;> intro h <;>
    · simp only [Ble.step, Ble.wifiCharacteristicChanged] at h
      split at h
      · simp at h
      · have := emitValue_trace_mem _ _ _ _ _ _ h
        cases this
  | wifiCharacteristicRead ch v =>
    constructor <;> intro h <;>
    · simp only [Ble.step, Ble.wifiCharacteristicRead] at h
      split at h
      · simp at h
      · have := emitValue_trace_mem _ _ _ _ _ _ h
        cases this

theorem onWifiState_state (s : ServiceState) (b : Ble) :
    (Ble.onWifiState s b).state =
      { b with wifi_ := b.wifi_.map fun w =>
          { w with
            characteristicChanged := w.characteristicChanged ++ [ValueSlot.emitWifi]
            characteristicRead := w.characteristicRead ++ [ValueSlot.emitWifi] } } := by
  unfold Ble.onWifiState
  cases hw : b.wifi_ with
  | none => cases b; simp at hw; simp [hw]
  | some w =>
    simp only [Option.map_some']
    split
    · split <;> rfl
    · rfl

theorem runStateSlot_wired (s : ServiceState) (b : Ble) (slot : StateSlot) (hw : Ble.wired b) :
    Ble.wired (Ble.runStateSlot s b slot).state := by
  cases slot with
  | powerState =>
    show Ble.wired (Ble.onPowerState s b).state
    unfold Ble.onPowerState
    split <;> exact hw
  | wifiState =>
    show Ble.wired (Ble.onWifiState s b).state
    rw [onWifiState_state]
    refine ⟨hw.1, ?_⟩
    intro w h slot hslot
    simp only [Option.map_eq_some'] at h
    obtain ⟨w0, h0, rfl⟩ := h
    exact hw.2 w0 h0 slot hslot

theorem emitStateChanged_wired (s : ServiceState) (slots : List StateSlot) (b : Ble)
    (hw : Ble.wired b) : Ble.wired (Ble.emitStateChanged s slots b).state := by
  unfold Ble.emitStateChanged
  have key : ∀ r : Result Unit, Ble.wired r.state →
      Ble.wired (slots.foldl (fun r slot => r.andThen fun b1 => Ble.runStateSlot s b1 slot)
        r).state := by
    induction slots with
    | nil => intro r hr; exact hr
    | cons slot rest ih =>
      intro r hr
      rw [List.foldl_cons]
      exact ih _ (runStateSlot_wired s r.state slot hr)
  exact key _ hw

theorem emitValue_state (qt : Utf8) (ch : QLowEnergyCharacteristic) (v : QByteArray)
    (slots : List ValueSlot) (b : Ble) : (Ble.emitValue qt ch v slots b).state = b := by
  unfold Ble.emitValue
  have key : ∀ r : Result Unit,
      (slots.foldl (fun r slot => r.andThen fun b1 => Ble.runValueSlot qt ch v b1 slot)
        r).state = r.state := by
    induction slots with
    | nil => intro r; rfl
    | cons slot rest ih =>
      intro r
      rw [List.foldl_cons, ih]
      cases slot
      simp only [Result.andThen, Ble.runValueSlot, Ble.emitWifi]
      split <;> rfl
  exact key _

theorem powerStateChanged_wired (s : ServiceState) (b : Ble) (hw : Ble.wired b) :
    Ble.wired (Ble.powerStateChanged s b).state := by
  unfold Ble.powerStateChanged
  cases hp : b.power_ with
  | none => exact hw
  | some p =>
    simp only
    split
    · exact hw
    · apply emitStateChanged_wired
      refine ⟨?_, hw.2⟩
      intro p1 h1 slot hslot
      simp only [Option.some.injEq] at h1
      subst h1
      exact hw.1 p hp slot hslot

theorem wifiStateChanged_wired (s : ServiceState) (b : Ble) (hw : Ble.wired b) :
    Ble.wired (Ble.wifiStateChanged s b).state := by
  unfold Ble.wifiStateChanged
  cases hp : b.wifi_ with
  | none => exact hw
  | some w =>
    simp only
    split
    · exact hw
    · apply emitStateChanged_wired
      refine ⟨hw.1, ?_⟩
      intro w1 h1 slot hslot
      simp only [Option.some.injEq] at h1
      subst h1
      exact hw.2 w hp slot hslot

theorem connectStateChanged_wired (slot : StateSlot) (p : QLowEnergyController)
    (u : QBluetoothUuid) (o : QLowEnergyService)
    (h : connectStateChanged slot (p.createServiceObject u) = some o) :
    ∀ x ∈ o.stateChanged, x = slot := by
  unfold connectStateChanged QLowEnergyController.createServiceObject at h
  simp only [Option.map_map, Option.map_eq_some'] at h
  obtain ⟨e, _, rfl⟩ := h
  simp

theorem onService_wired (u : QBluetoothUuid) (b : Ble) (hw : Ble.wired b) :
    Ble.wired (Ble.onService u b).state := by
  unfold Ble.onService
  split
  · exact hw
  · split
    · exact ⟨fun o h => connectStateChanged_wired _ _ _ o h, hw.2⟩
    · split
      · exact ⟨hw.1, fun o h => connectStateChanged_wired _ _ _ o h⟩
      · exact hw

theorem onTimer_wired (t : TimerSlot) (b : Ble) (hw : Ble.wired b) :
    Ble.wired (Ble.onTimer t b).state := by
  cases t with
  | powerDetails =>
    unfold Ble.onTimer
    simp only
    split
    · simp only [Result.andThen]
      unfold Ble.powerDiscoverDetails
      split
      · exact hw
      · split
        · exact powerStateChanged_wired _ _ hw
        · exact hw
    · exact hw
  | wifiDetails =>
    unfold Ble.onTimer
    simp only
    split
    · simp only [Result.andThen]
      unfold Ble.wifiDiscoverDetails
      split
      · exact hw
      · split
        · exact wifiStateChanged_wired _ _ hw
        · exact hw
    · exact hw

theorem step_wired (qt : Utf8) (b : Ble) (a : Action) (hw : Ble.wired b) :
    Ble.wired (Ble.step qt b a).state := by
  cases a with
  | search =>
    simp only [Ble.step, Ble.search]
    split
    · unfold Ble.disconnectFromProbe
      split
      · exact hw
      · split <;> exact hw
    · exact hw
  | connectToProbe name =>
    rcases connectToProbe_cases name b with ⟨h1, _⟩ | ⟨dev, _, _, _, h4⟩
    · simp only [Ble.step, Result.forget, h1, Ble.refused]; exact hw
    · simp only [Ble.step, Result.forget, h4, Ble.accepted]; exact hw
  | disconnectFromProbe =>
    simp only [Ble.step, Result.forget, Ble.disconnectFromProbe]
    split
    · exact hw
    · split <;> exact hw
  | power en =>
    simp only [Ble.step, Result.forget, Ble.power]
    split
    · exact hw
    · split
      · exact hw
      · split <;> exact hw
  | requestWifi info =>
    simp only [Ble.step, Result.forget, Ble.requestWifi]
    split
    · exact hw
    · split
      · exact hw
      · split <;> exact hw
  | deviceDiscovered d => exact hw
  | searchFinished => exact hw
  | adapterChanged valid => exact hw
  | controllerState s => exact hw
  | connected =>
    simp only [Ble.step, Ble.onConnected]
    split <;> exact hw
  | serviceDiscovered u chars => exact onService_wired _ _ hw
  | discoveryFinished => exact hw
  | timeout =>
    simp only [Ble.step]
    split
    · exact hw
    · exact onTimer_wired _ _ hw
  | powerStateChanged s => exact powerStateChanged_wired s b hw
  | wifiStateChanged s => exact wifiStateChanged_wired s b hw
  | wifiCharacteristicChanged ch v =>
    simp only [Ble.step, Ble.wifiCharacteristicChanged]
    split
    · exact hw
    · rw [emitValue_state]; exact hw
  | wifiCharacteristicRead ch v =>
    simp only [Ble.step, Ble.wifiCharacteristicRead]
    split
    · exact hw
    · rw [emitValue_state]; exact hw

theorem run_wired (qt : Utf8) (as : List Action) (b : Ble) (hw : Ble.wired b) :
    Ble.wired (Ble.run qt b as).state := by
  unfold Ble.run
  have key : ∀ r : Result Unit, Ble.wired r.state →
      Ble.wired (as.foldl (fun r a => r.andThen fun b1 => Ble.step qt b1 a) r).state := by
    induction as with
    | nil => intro r hr; exact hr
    | cons a rest ih =>
      intro r hr
      rw [List.foldl_cons]
      exact ih _ (step_wired qt r.state a hr)
  exact key _ hw

theorem init_wired : Ble.wired Ble.init := by
  constructor <;> intro p h <;> cases h

theorem emitValue_published (qt : Utf8) (ch : QLowEnergyCharacteristic) (v : QByteArray)
    (slots : List ValueSlot) (b : Ble) (hch : ch.uuid = wifiPublishedUuid) (hv : v ≠ []) :
    (Ble.emitValue qt ch v slots b).trace =
      List.replicate slots.length (Effect.emit (Event.wifiInfo (qt.fromUtf8 v))) := by
  unfold Ble.emitValue
  have key : ∀ r : Result Unit,
      (slots.foldl (fun r slot => r.andThen fun b1 => Ble.runValueSlot qt ch v b1 slot)
        r).trace =
      r.trace ++ List.replicate slots.length (Effect.emit (Event.wifiInfo (qt.fromUtf8 v))) := by
    induction slots with
    | nil => intro r; simp
    | cons slot rest ih =>
      intro r
      rw [List.foldl_cons, ih]
      cases slot
      simp [Result.andThen, Ble.runValueSlot, Ble.emitWifi, hch, hv, List.replicate_succ]
  simpa using key { ret := (), state := b, trace := [] }

/-- One notification gives as many `wifiInfo` signals as `emitWifi` has connections to
`characteristicChanged`, and every run of the wifi lambda adds a connection. -/
theorem wifiInfo_once_per_connection (qt : Utf8) (b : Ble) (w : QLowEnergyService)
    (ch : QLowEnergyCharacteristic) (v : QByteArray) (s : ServiceState)
    (hw : b.wifi_ = some w) (hch : ch.uuid = wifiPublishedUuid) (hv : v ≠ []) :
    (Ble.wifiCharacteristicChanged qt ch v b).trace =
      List.replicate w.characteristicChanged.length
        (Effect.emit (Event.wifiInfo (qt.fromUtf8 v))) ∧
    (Ble.wifiCharacteristicChanged qt ch v (Ble.onWifiState s b).state).trace =
      List.replicate (w.characteristicChanged.length + 1)
        (Effect.emit (Event.wifiInfo (qt.fromUtf8 v))) := by
  constructor
  · unfold Ble.wifiCharacteristicChanged
    rw [hw]
    exact emitValue_published qt ch v _ b hch hv
  · unfold Ble.wifiCharacteristicChanged
    rw [onWifiState_state, hw]
    simp only [Option.map_some']
    rw [emitValue_published qt ch v _ _ hch hv]
    simp

theorem runStateSlot_keeps (s : ServiceState) (b : Ble) (slot : StateSlot) :
    (Ble.runStateSlot s b slot).state.power_ = b.power_ ∧
    (Ble.runStateSlot s b slot).state.wifi_.isSome = b.wifi_.isSome ∧
    ((Ble.runStateSlot s b slot).state.wifi_.map fun w => w.state) =
      (b.wifi_.map fun w => w.state) ∧
    (Ble.runStateSlot s b slot).state.probe_ = b.probe_ ∧
    (Ble.runStateSlot s b slot).state.probes_ = b.probes_ := by
  cases slot with
  | powerState =>
    have h : Ble.runStateSlot s b StateSlot.powerState = Ble.onPowerState s b := rfl
    rw [h]
    unfold Ble.onPowerState
    split <;> simp
  | wifiState =>
    have h : Ble.runStateSlot s b StateSlot.wifiState = Ble.onWifiState s b := rfl
    rw [h, onWifiState_state]
    cases b.wifi_ <;> simp

theorem emitStateChanged_keeps (s : ServiceState) (slots : List StateSlot) (b : Ble) :
    (Ble.emitStateChanged s slots b).state.power_ = b.power_ ∧
    (Ble.emitStateChanged s slots b).state.wifi_.isSome = b.wifi_.isSome ∧
    ((Ble.emitStateChanged s slots b).state.wifi_.map fun w => w.state) =
      (b.wifi_.map fun w => w.state) ∧
    (Ble.emitStateChanged s slots b).state.probe_ = b.probe_ ∧
    (Ble.emitStateChanged s slots b).state.probes_ = b.probes_ := by
  unfold Ble.emitStateChanged
  have key : ∀ r : Result Unit,
      (slots.foldl (fun r slot => r.andThen fun b1 => Ble.runStateSlot s b1 slot)
        r).state.power_ = r.state.power_ ∧
      (slots.foldl (fun r slot => r.andThen fun b1 => Ble.runStateSlot s b1 slot)
        r).state.wifi_.isSome = r.state.wifi_.isSome ∧
      ((slots.foldl (fun r slot => r.andThen fun b1 => Ble.runStateSlot s b1 slot)
        r).state.wifi_.map fun w => w.state) = (r.state.wifi_.map fun w => w.state) ∧
      (slots.foldl (fun r slot => r.andThen fun b1 => Ble.runStateSlot s b1 slot)
        r).state.probe_ = r.state.probe_ ∧
      (slots.foldl (fun r slot => r.andThen fun b1 => Ble.runStateSlot s b1 slot)
        r).state.probes_ = r.state.probes_ := by
    induction slots with
    | nil => intro r; simp
    | cons slot rest ih =>
      intro r
      rw [List.foldl_cons]
      obtain ⟨h1, h2, h3, h4, h5⟩ := ih (r.andThen fun b1 => Ble.runStateSlot s b1 slot)
      obtain ⟨k1, k2, k3, k4, k5⟩ := runStateSlot_keeps s r.state slot
      exact ⟨h1.trans k1, h2.trans k2, h3.trans k3, h4.trans k4, h5.trans k5⟩
  exact key _

theorem emitStateChanged_silent (s : ServiceState) (slots : List StateSlot) (b : Ble)
    (hs : s ≠ ServiceState.ServiceDiscovered) : (Ble.emitStateChanged s slots b).trace = [] := by
  rw [List.eq_nil_iff_forall_not_mem]
  intro e he
  obtain ⟨slot, _, b1, h1⟩ := emitStateChanged_trace_mem s slots b e he
  cases slot with
  | powerState => exact hs (onPowerState_trace_mem s b1 e h1).2
  | wifiState => exact hs (onWifiState_trace_mem s b1 e h1).2

theorem power_refused (b : Ble) (en : Bool)
    (h : ∀ p, b.power_ = some p → p.state ≠ ServiceState.ServiceDiscovered) :
    Ble.power en b = Ble.refused b := by
  unfold Ble.power Ble.refused
  cases hp : b.power_ with
  | none => rfl
  | some p => simp [h p hp]

theorem requestWifi_refused (qt : Utf8) (b : Ble) (info : QString)
    (h : ∀ w, b.wifi_ = some w → w.state ≠ ServiceState.ServiceDiscovered) :
    Ble.requestWifi qt info b = Ble.refused b := by
  unfold Ble.requestWifi Ble.refused
  cases hw : b.wifi_ with
  | none => rfl
  | some w => simp [h w hw]

theorem powerStateChanged_invalid (b : Ble) :
    (Ble.powerStateChanged ServiceState.InvalidService b).trace = [] ∧
    ((Ble.powerStateChanged ServiceState.InvalidService b).state.power_.map fun p => p.state) =
      (b.power_.map fun _ => ServiceState.InvalidService) ∧
    (Ble.powerStateChanged ServiceState.InvalidService b).state.wifi_.isSome = b.wifi_.isSome ∧
    ((Ble.powerStateChanged ServiceState.InvalidService b).state.wifi_.map fun w => w.state) =
      (b.wifi_.map fun w => w.state) ∧
    (Ble.powerStateChanged ServiceState.InvalidService b).state.probe_ = b.probe_ ∧
    (Ble.powerStateChanged ServiceState.InvalidService b).state.probes_ = b.probes_ := by
  unfold Ble.powerStateChanged
  cases hp : b.power_ with
  | none => simp [hp]
  | some p =>
    simp only
    by_cases hs : p.state = ServiceState.InvalidService
    · simp [hs, hp]
    · have hne : (p.state == ServiceState.InvalidService) = false := by simpa using hs
      rw [hne]
      simp only [Bool.false_eq_true, if_false]
      obtain ⟨k1, k2, k3, k4, k5⟩ := emitStateChanged_keeps ServiceState.InvalidService
        p.stateChanged { b with power_ := some { p with state := ServiceState.InvalidService } }
      refine ⟨emitStateChanged_silent _ _ _ (by decide), ?_, k2, k3, k4, k5⟩
      rw [k1]
      rfl

theorem wifiStateChanged_invalid (b : Ble) :
    (Ble.wifiStateChanged ServiceState.InvalidService b).trace = [] ∧
    (Ble.wifiStateChanged ServiceState.InvalidService b).state.power_ = b.power_ ∧
    ((Ble.wifiStateChanged ServiceState.InvalidService b).state.wifi_.map fun w => w.state) =
      (b.wifi_.map fun _ => ServiceState.InvalidService) ∧
    (Ble.wifiStateChanged ServiceState.InvalidService b).state.probe_ = b.probe_ ∧
    (Ble.wifiStateChanged ServiceState.InvalidService b).state.probes_ = b.probes_ := by
  unfold Ble.wifiStateChanged
  cases hw : b.wifi_ with
  | none => simp [hw]
  | some w =>
    simp only
    by_cases hs : w.state = ServiceState.InvalidService
    · simp [hs, hw]
    · have hne : (w.state == ServiceState.InvalidService) = false := by simpa using hs
      rw [hne]
      simp only [Bool.false_eq_true, if_false]
      obtain ⟨k1, _, k3, k4, k5⟩ := emitStateChanged_keeps ServiceState.InvalidService
        w.stateChanged { b with wifi_ := some { w with state := ServiceState.InvalidService } }
      refine ⟨emitStateChanged_silent _ _ _ (by decide), k1, ?_, k4, k5⟩
      rw [k3]
      rfl

theorem powerStateChanged_sessions (s : ServiceState) (b : Ble) :
    (Ble.powerStateChanged s b).state.power_.isSome = b.power_.isSome ∧
    (Ble.powerStateChanged s b).state.wifi_.isSome = b.wifi_.isSome := by
  unfold Ble.powerStateChanged
  cases hp : b.power_ with
  | none => simp [hp]
  | some p =>
    simp only
    split
    · simp [hp]
    · obtain ⟨k1, k2, _⟩ := emitStateChanged_keeps s p.stateChanged
        { b with power_ := some { p with state := s } }
      exact ⟨by rw [k1]; rfl, k2⟩

theorem wifiStateChanged_sessions (s : ServiceState) (b : Ble) :
    (Ble.wifiStateChanged s b).state.power_.isSome = b.power_.isSome ∧
    (Ble.wifiStateChanged s b).state.wifi_.isSome = b.wifi_.isSome := by
  unfold Ble.wifiStateChanged
  cases hw : b.wifi_ with
  | none => simp [hw]
  | some w =>
    simp only
    split
    · simp [hw]
    · obtain ⟨k1, k2, _⟩ := emitStateChanged_keeps s w.stateChanged
        { b with wifi_ := some { w with state := s } }
      exact ⟨by rw [k1], by rw [k2]; rfl⟩

theorem onTimer_sessions (t : TimerSlot) (b : Ble) :
    (Ble.onTimer t b).state.power_.isSome = b.power_.isSome ∧
    (Ble.onTimer t b).state.wifi_.isSome = b.wifi_.isSome := by
  cases t with
  | powerDetails =>
    unfold Ble.onTimer
    simp only
    split
    · simp only [Result.andThen]
      unfold Ble.powerDiscoverDetails
      split
      · exact ⟨rfl, rfl⟩
      · split
        · exact powerStateChanged_sessions _ _
        · exact ⟨rfl, rfl⟩
    · exact ⟨rfl, rfl⟩
  | wifiDetails =>
    unfold Ble.onTimer
    simp only
    split
    · simp only [Result.andThen]
      unfold Ble.wifiDiscoverDetails
      split
      · exact ⟨rfl, rfl⟩
      · split
        · exact wifiStateChanged_sessions _ _
        · exact ⟨rfl, rfl⟩
    · exact ⟨rfl, rfl⟩

theorem createServiceObject_found (slot : StateSlot) (p : QLowEnergyController)
    (u : QBluetoothUuid) (chars : List QLowEnergyCharacteristic) :
    (connectStateChanged slot (QLowEnergyController.createServiceObject
      { p with services := p.services ++ [(u, chars)] } u)).isSome = true := by
  simp [connectStateChanged, QLowEnergyController.createServiceObject, List.find?_isSome]

theorem connectToProbe_sessions (name : QString) (b : Ble) :
    (Ble.connectToProbe name b).state.power_ = b.power_ ∧
    (Ble.connectToProbe name b).state.wifi_ = b.wifi_ := by
  rcases connectToProbe_cases name b with ⟨h1, _⟩ | ⟨dev, _, _, _, h4⟩
  · rw [h1]; exact ⟨rfl, rfl⟩
  · rw [h4]; exact ⟨rfl, rfl⟩

/-- A step leaves the existence of each session as it was, but for `onService` on the UUID
of the session, which makes it exist. -/
theorem step_sessions (qt : Utf8) (b : Ble) (a : Action) :
    ((Ble.step qt b a).state.power_.isSome = b.power_.isSome ∨
      ((∃ chars, a = Action.serviceDiscovered QBluetoothUuid.ImmediateAlert chars) ∧
        (Ble.step qt b a).state.power_.isSome = true)) ∧
    ((Ble.step qt b a).state.wifi_.isSome = b.wifi_.isSome ∨
      ((∃ chars, a = Action.serviceDiscovered wifiUuid chars) ∧
        (Ble.step qt b a).state.wifi_.isSome = true)) := by
  cases a with
  | search =>
    simp only [Ble.step, Ble.search]
    split
    · unfold Ble.disconnectFromProbe
      split
      · exact ⟨Or.inl rfl, Or.inl rfl⟩
      · split <;> exact ⟨Or.inl rfl, Or.inl rfl⟩
    · exact ⟨Or.inl rfl, Or.inl rfl⟩
  | connectToProbe name =>
    obtain ⟨h1, h2⟩ := connectToProbe_sessions name b
    exact ⟨Or.inl (by simp only [Ble.step, Result.forget]; rw [h1]),
      Or.inl (by simp only [Ble.step, Result.forget]; rw [h2])⟩
  | disconnectFromProbe =>
    simp only [Ble.step, Result.forget, Ble.disconnectFromProbe]
    split
    · exact ⟨Or.inl rfl, Or.inl rfl⟩
    · split <;> exact ⟨Or.inl rfl, Or.inl rfl⟩
  | power en =>
    simp only [Ble.step, Result.forget, Ble.power]
    split
    · exact ⟨Or.inl rfl, Or.inl rfl⟩
    · split
      · exact ⟨Or.inl rfl, Or.inl rfl⟩
      · split <;> exact ⟨Or.inl rfl, Or.inl rfl⟩
  | requestWifi info =>
    simp only [Ble.step, Result.forget, Ble.requestWifi]
    split
    · exact ⟨Or.inl rfl, Or.inl rfl⟩
    · split
      · exact ⟨Or.inl rfl, Or.inl rfl⟩
      · split <;> exact ⟨Or.inl rfl, Or.inl rfl⟩
  | deviceDiscovered d => exact ⟨Or.inl rfl, Or.inl rfl⟩
  | searchFinished => exact ⟨Or.inl rfl, Or.inl rfl⟩
  | adapterChanged valid => exact ⟨Or.inl rfl, Or.inl rfl⟩
  | controllerState s => exact ⟨Or.inl rfl, Or.inl rfl⟩
  | connected =>
    simp only [Ble.step, Ble.onConnected]
    split <;> exact ⟨Or.inl rfl, Or.inl rfl⟩
  | serviceDiscovered u chars =>
    simp only [Ble.step, Ble.onService]
    cases hp : b.probe_ with
    | none => exact ⟨Or.inl rfl, Or.inl rfl⟩
    | some p =>
      simp only [Option.map_some']
      by_cases h1 : u = QBluetoothUuid.ImmediateAlert
      · subst h1
        simp only [beq_self_eq_true, if_true]
        exact ⟨Or.inr ⟨⟨chars, rfl⟩, createServiceObject_found _ p _ chars⟩, Or.inl (by first | rfl | trivial)⟩
      · have h1b : (u == QBluetoothUuid.ImmediateAlert) = false := by simpa using h1
        simp only [h1b, Bool.false_eq_true, if_false]
        by_cases h2 : u = wifiUuid
        · subst h2
          simp only [beq_self_eq_true, if_true]
          exact ⟨Or.inl (by first | rfl | trivial), Or.inr ⟨⟨chars, rfl⟩, createServiceObject_found _ p _ chars⟩⟩
        · have h2b : (u == wifiUuid) = false := by simpa using h2
          simp only [h2b, Bool.false_eq_true, if_false]
          exact ⟨Or.inl (by first | rfl | trivial), Or.inl (by first | rfl | trivial)⟩
  | discoveryFinished => exact ⟨Or.inl rfl, Or.inl rfl⟩
  | timeout =>
    simp only [Ble.step]
    split
    · exact ⟨Or.inl rfl, Or.inl rfl⟩
    · rename_i t ts _
      obtain ⟨h1, h2⟩ := onTimer_sessions t { b with timers := ts }
      exact ⟨Or.inl h1, Or.inl h2⟩
  | powerStateChanged s =>
    obtain ⟨h1, h2⟩ := powerStateChanged_sessions s b
    exact ⟨Or.inl h1, Or.inl h2⟩
  | wifiStateChanged s =>
    obtain ⟨h1, h2⟩ := wifiStateChanged_sessions s b
    exact ⟨Or.inl h1, Or.inl h2⟩
  | wifiCharacteristicChanged ch v =>
    simp only [Ble.step, Ble.wifiCharacteristicChanged]
    split
    · exact ⟨Or.inl rfl, Or.inl rfl⟩
    · rw [emitValue_state]; exact ⟨Or.inl rfl, Or.inl rfl⟩
  | wifiCharacteristicRead ch v =>
    simp only [Ble.step, Ble.wifiCharacteristicRead]
    split
    · exact ⟨Or.inl rfl, Or.inl rfl⟩
    · rw [emitValue_state]; exact ⟨Or.inl rfl, Or.inl rfl⟩

theorem power_of_session (en : Bool) (b c : Ble) (h : c.power_ = b.power_) :
    (Ble.power en c).ret = (Ble.power en b).ret ∧
    (Ble.power en c).trace = (Ble.power en b).trace := by
  unfold Ble.power
  rw [h]
  cases b.power_ with
  | none => exact ⟨rfl, rfl⟩
  | some p =>
    simp only
    split
    · exact ⟨rfl, rfl⟩
    · split <;> exact ⟨rfl, rfl⟩

theorem requestWifi_of_session (qt : Utf8) (info : QString) (b c : Ble)
    (h : c.wifi_ = b.wifi_) :
    (Ble.requestWifi qt info c).ret = (Ble.requestWifi qt info b).ret ∧
    (Ble.requestWifi qt info c).trace = (Ble.requestWifi qt info b).trace := by
  unfold Ble.requestWifi
  rw [h]
  cases b.wifi_ with
  | none => exact ⟨rfl, rfl⟩
  | some w =>
    simp only
    split
    · exact ⟨rfl, rfl⟩
    · split <;> exact ⟨rfl, rfl⟩

/-- The failure of the link, step by step: the two services become invalid, the controller
becomes unconnected, and no slot of `Ble` runs for a signal of the controller. -/
theorem adapterFailure_eq (e : ControllerError) (b : Ble) :
    Ble.adapterFailure e b =
      { ret := ()
        state :=
          { (Ble.wifiStateChanged ServiceState.InvalidService
              (Ble.powerStateChanged ServiceState.InvalidService b).state).state with
            probe_ :=
              (Ble.wifiStateChanged ServiceState.InvalidService
                (Ble.powerStateChanged ServiceState.InvalidService b).state).state.probe_.map
                fun p => { p with state := ControllerState.UnconnectedState } }
        trace :=
          (Ble.powerStateChanged ServiceState.InvalidService b).trace ++
            (Ble.wifiStateChanged ServiceState.InvalidService
              (Ble.powerStateChanged ServiceState.InvalidService b).state).trace } := by
  simp [Ble.adapterFailure, Result.andThen, Ble.controllerSignal, Ble.controllerSlot,
    Ble.controllerStateChanged]

theorem isSome_of_map_state {α β : Type} (x y : Option α) (f g : α → β)
    (h : x.map f = y.map g) : x.isSome = y.isSome := by
  cases x <;> cases y <;> simp at h ⊢

theorem adapterFailure_facts (e : ControllerError) (b : Ble) :
    (Ble.adapterFailure e b).trace = [] ∧
    ((Ble.adapterFailure e b).state.power_.map fun p => p.state) =
      (b.power_.map fun _ => ServiceState.InvalidService) ∧
    ((Ble.adapterFailure e b).state.wifi_.map fun w => w.state) =
      (b.wifi_.map fun _ => ServiceState.InvalidService) ∧
    (Ble.adapterFailure e b).state.probes_ = b.probes_ ∧
    ((Ble.adapterFailure e b).state.probe_.map fun p => p.state) =
      (b.probe_.map fun _ => ControllerState.UnconnectedState) := by
  obtain ⟨p1, p2, _, p4, p5, p6⟩ := powerStateChanged_invalid b
  obtain ⟨w1, w2, w3, w4, w5⟩ :=
    wifiStateChanged_invalid (Ble.powerStateChanged ServiceState.InvalidService b).state
  rw [adapterFailure_eq]
  refine ⟨by simp [p1, w1], ?_, ?_, ?_, ?_⟩
  · show Option.map _ (Ble.wifiStateChanged ServiceState.InvalidService
      (Ble.powerStateChanged ServiceState.InvalidService b).state).state.power_ = _
    rw [w2, p2]
  · show Option.map _ (Ble.wifiStateChanged ServiceState.InvalidService
      (Ble.powerStateChanged ServiceState.InvalidService b).state).state.wifi_ = _
    rw [w3]
    have := p4
    cases hx : (Ble.powerStateChanged ServiceState.InvalidService b).state.wifi_ <;>
      cases hy : b.wifi_ <;> simp [hx, hy] at this ⊢
  · show (Ble.wifiStateChanged ServiceState.InvalidService
      (Ble.powerStateChanged ServiceState.InvalidService b).state).state.probes_ = _
    rw [w5, p6]
  · show Option.map _ (Option.map _ (Ble.wifiStateChanged ServiceState.InvalidService
      (Ble.powerStateChanged ServiceState.InvalidService b).state).state.probe_) = _
    rw [w4, p5]
    cases b.probe_ <;> rfl

/-- The failure of the link is a run of three steps of the transition system, whatever
the error reported. -/
theorem adapterFailure_eq_run (qt : Utf8) (e : ControllerError) (b : Ble) :
    Ble.adapterFailure e b =
      Ble.run qt b
        [Action.powerStateChanged ServiceState.InvalidService,
         Action.wifiStateChanged ServiceState.InvalidService,
         Action.controllerState ControllerState.UnconnectedState] := by
  simp [Ble.adapterFailure, Ble.run, Ble.step, Result.andThen, Ble.controllerSignal,
    Ble.controllerSlot, Ble.controllerStateChanged]

/-- After a failure of the link, whatever `connectToProbe` is called next, the services
held are in `InvalidService`. -/
theorem sessions_invalid_after_failure (e : ControllerError) (b : Ble) (name : QString) :
    (∀ p, (Ble.connectToProbe name (Ble.adapterFailure e b).state).state.power_ = some p →
      p.state = ServiceState.InvalidService) ∧
    (∀ w, (Ble.connectToProbe name (Ble.adapterFailure e b).state).state.wifi_ = some w →
      w.state = ServiceState.InvalidService) := by
  obtain ⟨_, h2, h3, _⟩ := adapterFailure_facts e b
  obtain ⟨k1, k2⟩ := connectToProbe_sessions name (Ble.adapterFailure e b).state
  constructor
  · intro p hp
    rw [k1] at hp
    rw [hp] at h2
    cases hb : b.power_ with
    | none => simp [hb] at h2
    | some p0 => simpa [hb] using h2
  · intro w hw
    rw [k2] at hw
    rw [hw] at h3
    cases hb : b.wifi_ with
    | none => simp [hb] at h3
    | some w0 => simpa [hb] using h3

/-! ## Claims -/

/-- C1, as the code has it: on a machine whose Bluetooth adapter is not usable,
`connectToProbe("P100")` returns true although `connectToDevice()` started no attempt, and
leaves the new controller unconnected.  A second `connectToProbe("P100")` right after it,
with nothing from the adapter in between, is not refused: it returns true, emits
`powerReady(false)` and `wifiReady(false)` again, puts a new controller in place of the
first and asks it to connect. -/
theorem C1_second_connect_accepted_without_adapter :
    (Ble.connectToProbe "P100" Ble.scannedNoAdapter).ret = true ∧
    (Ble.connectToProbe "P100" Ble.scannedNoAdapter).state.probe_ =
      some { device := probeP100, state := ControllerState.UnconnectedState, services := [] } ∧
    (Ble.connectToProbe "P100" (Ble.connectToProbe "P100" Ble.scannedNoAdapter).state).ret =
      true ∧
    (Ble.connectToProbe "P100" (Ble.connectToProbe "P100" Ble.scannedNoAdapter).state).trace =
      [Effect.emit (Event.powerReady false), Effect.emit (Event.wifiReady false),
       Effect.call (Request.connectToDevice probeP100)] := by
  decide

/-- C1, amended: while a controller exists whose state is not `UnconnectedState`,
`connectToProbe` returns false for every name, emits nothing, issues no request and leaves
the whole state (controller, registry, services) as it was; and when the local adapter is
usable, so that `connectToDevice()` starts the attempt of an accepted call, a second
`connectToProbe` right after the accepted one is such a call: it fails and leaves the first
attempt as it was. -/
theorem C1_connect_rejected_while_attempting :
    (∀ (b : Ble) (p : QLowEnergyController) (name : QString),
      b.probe_ = some p → p.state ≠ ControllerState.UnconnectedState →
      Ble.connectToProbe name b = { ret := false, state := b, trace := [] }) ∧
    (∀ (b : Ble) (first second : QString),
      b.adapterValid = true →
      (Ble.connectToProbe first b).ret = true →
      Ble.connectToProbe second (Ble.connectToProbe first b).state =
        { ret := false, state := (Ble.connectToProbe first b).state, trace := [] }) := by
  constructor
  · intro b p name hp hs
    apply connectToProbe_attempting
    simp [Ble.attempting, hp, hs]
  · intro b first second hv h
    rcases connectToProbe_cases first b with ⟨h1, _⟩ | ⟨dev, _, _, _, h4⟩
    · rw [h1] at h; simp [Ble.refused] at h
    · rw [h4]
      apply connectToProbe_attempting
      simp [Ble.accepted, Ble.attempting, QLowEnergyController.createCentral,
        QLowEnergyController.connectToDevice, hv]

theorem C1_connect_rejected_while_attempting_witness :
    Ble.connecting.probe_ =
      some { device := probeP100, state := ControllerState.ConnectingState, services := [] } ∧
    Ble.connectToProbe "P100" Ble.connecting =
      { ret := false, state := Ble.connecting, trace := [] } ∧
    Ble.scanned.adapterValid = true ∧
    (Ble.connectToProbe "P100" Ble.scanned).ret = true ∧
    Ble.connectToProbe "P200" (Ble.connectToProbe "P100" Ble.scanned).state =
      { ret := false, state := (Ble.connectToProbe "P100" Ble.scanned).state, trace := [] } :=
  ⟨by decide,
   C1_connect_rejected_while_attempting.1 Ble.connecting
     { device := probeP100, state := ControllerState.ConnectingState, services := [] } "P100"
     (by decide) (by decide),
   by decide, by decide,
   C1_connect_rejected_while_attempting.2 Ble.scanned "P100" "P200" (by decide) (by decide)⟩

/-- C2: an accepted `connectToProbe` (one that returns true) emits `powerReady(false)`, then
`wifiReady(false)`, and only then issues the connect request for the registered device,
and does nothing else; so whatever the readiness flags of a listener were before the
call, both are false when it returns. -/
theorem C2_accepted_connect_clears_readiness (name : QString) (b : Ble)
    (h : (Ble.connectToProbe name b).ret = true) :
    ∃ dev, Ble.findProbe name b = some dev ∧
      (Ble.connectToProbe name b).trace =
        [Effect.emit (Event.powerReady false), Effect.emit (Event.wifiReady false),
         Effect.call (Request.connectToDevice dev)] ∧
      ∀ f : Readiness,
        f.after (Ble.connectToProbe name b).trace = { power := false, wifi := false } := by
  rcases connectToProbe_cases name b with ⟨h1, _⟩ | ⟨dev, _, h2, _, h4⟩
  · rw [h1] at h; simp [Ble.refused] at h
  · refine ⟨dev, h2, ?_, ?_⟩
    · rw [h4]; rfl
    · intro f
      rw [h4]; rfl

theorem C2_accepted_connect_clears_readiness_witness :
    (Ble.connectToProbe "P100" Ble.scanned).ret = true ∧
    ∃ dev, Ble.findProbe "P100" Ble.scanned = some dev ∧
      (Ble.connectToProbe "P100" Ble.scanned).trace =
        [Effect.emit (Event.powerReady false), Effect.emit (Event.wifiReady false),
         Effect.call (Request.connectToDevice dev)] ∧
      ∀ f : Readiness,
        f.after (Ble.connectToProbe "P100" Ble.scanned).trace = { power := false, wifi := false } :=
  ⟨by decide, C2_accepted_connect_clears_readiness "P100" Ble.scanned (by decide)⟩

/-- C3: `power(en)` with no power service, or with the power service in a state other than
`ServiceDiscovered`, returns false, issues no request and changes nothing; `requestWifi(info)`
with no wifi service, or with the wifi service in a state other than `ServiceDiscovered`,
does the same. -/
theorem C3_not_ready_is_refused :
    (∀ (b : Ble) (en : Bool),
      (b.power_ = none ∨ ∃ p, b.power_ = some p ∧ p.state ≠ ServiceState.ServiceDiscovered) →
      Ble.power en b = { ret := false, state := b, trace := [] }) ∧
    (∀ (qt : Utf8) (b : Ble) (info : QString),
      (b.wifi_ = none ∨ ∃ w, b.wifi_ = some w ∧ w.state ≠ ServiceState.ServiceDiscovered) →
      Ble.requestWifi qt info b = { ret := false, state := b, trace := [] }) := by
  constructor
  · intro b en h
    unfold Ble.power
    rcases h with hp | ⟨p, hp, hs⟩
    · rw [hp]
    · rw [hp]; simp [hs]
  · intro qt b info h
    unfold Ble.requestWifi
    rcases h with hw | ⟨w, hw, hs⟩
    · rw [hw]
    · rw [hw]; simp [hs]

theorem C3_not_ready_is_refused_witness :
    Ble.power true Ble.init = { ret := false, state := Ble.init, trace := [] } ∧
    Ble.requestWifi Utf8.ascii "SSID=Home" Ble.discovering =
      { ret := false, state := Ble.discovering, trace := [] } :=
  ⟨C3_not_ready_is_refused.1 Ble.init true (Or.inl rfl),
   C3_not_ready_is_refused.2 Utf8.ascii Ble.discovering "SSID=Home"
     (Or.inr ⟨_, rfl, by decide⟩)⟩

/-- C4: the registry after `searchComplete` is the list made from the devices of the scan
alone: the devices whose name starts with the family mark, in scan order, each under its
new name; it is the same whatever the registry held before; and the `devices` signal, the
only thing emitted, carries the names of the new registry in the same order. -/
theorem C4_registry_replaced_by_scan (b : Ble) :
    (Ble.searchComplete b).state.probes_ =
      (b.search_.filter fun d => QString.startsWith d.name "CUS").map
        (fun d => (QString.remove d.name "CUS-", d)) ∧
    (∀ prior, (Ble.searchComplete { b with probes_ := prior }).state.probes_ =
      (Ble.searchComplete b).state.probes_) ∧
    (Ble.searchComplete b).trace =
      [Effect.emit (Event.devices ((Ble.searchComplete b).state.probes_.map fun p => p.1))] := by
  simp [Ble.searchComplete, searchComplete_foldl, Function.comp_def]

/-- C5, as the code has it: a scan finds a device named "CUS-" ++ "L7-CUS-A" and a device
named "CUSTOM".  The first is registered as "L7-A", not as "L7-CUS-A": `QString::remove`
takes out every "CUS-" of the name, not the leading one alone.  The second is retained,
under its whole name, although it does not start with "CUS-": the test is for "CUS". -/
theorem C5_every_occurrence_removed :
    probeInner.name = "CUS-" ++ "L7-CUS-A" ∧
    QString.startsWith probeCustom.name "CUS-" = false ∧
    (Ble.searchComplete { Ble.init with search_ := [probeInner, probeCustom] }).state.probes_ =
      [("L7-A", probeInner), ("CUSTOM", probeCustom)] ∧
    (Ble.searchComplete { Ble.init with search_ := [probeInner, probeCustom] }).trace =
      [Effect.emit (Event.devices ["L7-A", "CUSTOM"])] := by
  decide

/-- C6, as the code has it: the registry after a scan that found a device named "CUS-"
holds an entry under the empty name, no controller exists, and `connectToProbe("")` fails
all the same. -/
theorem C6_empty_name_refused_though_registered :
    Ble.scannedUnnamed.probe_ = none ∧
    ("", probeUnnamed) ∈ Ble.scannedUnnamed.probes_ ∧
    (Ble.connectToProbe "" Ble.scannedUnnamed).ret = false := by
  decide

/-- C6, amended: `connectToProbe(name)` for a name that no registry entry has returns
false, emits nothing, issues no request and changes nothing (no controller is created);
and when there is no controller, or the controller is unconnected, `connectToProbe(name)`
fails only if `name` is empty or no registry entry has it. -/
theorem C6_connect_fails_only_if_empty_or_absent :
    (∀ (b : Ble) (name : QString),
      (∀ p ∈ b.probes_, p.1 ≠ name) →
      Ble.connectToProbe name b = { ret := false, state := b, trace := [] }) ∧
    (∀ (b : Ble) (name : QString),
      (b.probe_ = none ∨
        ∃ p, b.probe_ = some p ∧ p.state = ControllerState.UnconnectedState) →
      (Ble.connectToProbe name b).ret = false →
      name = "" ∨ ∀ p ∈ b.probes_, p.1 ≠ name) := by
  constructor
  · intro b name h
    rcases connectToProbe_cases name b with ⟨h1, _⟩ | ⟨dev, _, h2, _, _⟩
    · exact h1
    · rw [(findProbe_eq_none name b).2 h] at h2
      cases h2
  · intro b name hb hret
    rcases connectToProbe_cases name b with ⟨_, h1 | h2 | h3⟩ | ⟨dev, _, _, _, h4⟩
    · exact Or.inl ((isEmpty_iff name).1 h1)
    · exact Or.inr ((findProbe_eq_none name b).1 h2)
    · rw [attempting_eq_false b hb] at h3
      cases h3
    · rw [h4] at hret
      simp [Ble.accepted] at hret

theorem C6_connect_fails_only_if_empty_or_absent_witness :
    Ble.connectToProbe "P200" Ble.scanned = { ret := false, state := Ble.scanned, trace := [] } ∧
    ("P200" = "" ∨ ∀ p ∈ Ble.scanned.probes_, p.1 ≠ "P200") :=
  ⟨C6_connect_fails_only_if_empty_or_absent.1 Ble.scanned "P200" (by decide),
   C6_connect_fails_only_if_empty_or_absent.2 Ble.scanned "P200" (Or.inl rfl) (by decide)⟩

/-- C7: with the power service in `ServiceDiscovered` and a valid alert level
characteristic, `power(en)` returns true, changes nothing, and issues one request and no
more: a write to the alert level characteristic, without response, of the single byte 0x02
when `en` is true and 0x01 when it is false. -/
theorem C7_power_writes_one_byte (b : Ble) (p : QLowEnergyService)
    (ch : QLowEnergyCharacteristic) (en : Bool)
    (hp : b.power_ = some p) (hs : p.state = ServiceState.ServiceDiscovered)
    (hc : p.characteristic QBluetoothUuid.AlertLevel = some ch) :
    Ble.power en b =
      { ret := true, state := b
        trace := [Effect.call (Request.writeCharacteristic Session.power ch
          [if en then 0x02 else 0x01] WriteMode.WriteWithoutResponse)] } ∧
    ch.uuid = QBluetoothUuid.AlertLevel := by
  refine ⟨?_, characteristic_uuid p _ ch hc⟩
  unfold Ble.power
  rw [hp]
  cases en
  · simp [hs, hc]; decide
  · simp [hs, hc]; decide

theorem C7_power_writes_one_byte_witness :
    Ble.ready.power_.map (fun p => p.state) = some ServiceState.ServiceDiscovered ∧
    Ble.power true Ble.ready =
      { ret := true, state := Ble.ready
        trace := [Effect.call (Request.writeCharacteristic Session.power alertLevel
          [if true then 0x02 else 0x01] WriteMode.WriteWithoutResponse)] } ∧
    alertLevel.uuid = QBluetoothUuid.AlertLevel :=
  ⟨by decide, C7_power_writes_one_byte Ble.ready _ alertLevel true rfl (by decide) (by decide)⟩

/-- C8: `requestWifi("")` returns false, issues no request and changes nothing, in every
state; and for a non-empty `info`, with the wifi service in `ServiceDiscovered` and a valid
request characteristic, `requestWifi(info)` returns true, changes nothing, and issues one
request and no more: a write of `info.toUtf8()` to the request characteristic. -/
theorem C8_requestWifi_needs_text :
    (∀ (qt : Utf8) (b : Ble),
      Ble.requestWifi qt "" b = { ret := false, state := b, trace := [] }) ∧
    (∀ (qt : Utf8) (b : Ble) (w : QLowEnergyService) (ch : QLowEnergyCharacteristic)
      (info : QString),
      b.wifi_ = some w → w.state = ServiceState.ServiceDiscovered →
      w.characteristic wifiRequestUuid = some ch → info ≠ "" →
      Ble.requestWifi qt info b =
        { ret := true, state := b
          trace := [Effect.call (Request.writeCharacteristic Session.wifi ch
            (qt.toUtf8 info) WriteMode.WriteWithResponse)] } ∧
      ch.uuid = wifiRequestUuid) := by
  constructor
  · intro qt b
    unfold Ble.requestWifi
    cases b.wifi_ with
    | none => rfl
    | some w => simp [(isEmpty_iff "").2 rfl]
  · intro qt b w ch info hw hs hc hinfo
    refine ⟨?_, characteristic_uuid w _ ch hc⟩
    have he : QString.isEmpty info = false := by
      cases h : QString.isEmpty info with
      | false => rfl
      | true => exact absurd ((isEmpty_iff info).1 h) hinfo
    unfold Ble.requestWifi
    rw [hw]
    simp [hs, hc, he]

theorem C8_requestWifi_needs_text_witness :
    Ble.requestWifi Utf8.ascii "" Ble.ready = { ret := false, state := Ble.ready, trace := [] } ∧
    Ble.ready.wifi_.map (fun w => w.state) = some ServiceState.ServiceDiscovered ∧
    Ble.requestWifi Utf8.ascii "SSID=Home" Ble.ready =
      { ret := true, state := Ble.ready
        trace := [Effect.call (Request.writeCharacteristic Session.wifi wifiRequest
          (Utf8.ascii.toUtf8 "SSID=Home") WriteMode.WriteWithResponse)] } ∧
    wifiRequest.uuid = wifiRequestUuid :=
  ⟨C8_requestWifi_needs_text.1 Utf8.ascii Ble.ready, by decide,
   C8_requestWifi_needs_text.2 Utf8.ascii Ble.ready _ wifiRequest "SSID=Home" rfl (by decide)
     (by decide) (by decide)⟩

/-- C9, as the code has it: in `Ble.ready`, reached from a fresh object by a scan, a
connect, the discovery of both services and the two state changes of the wifi service
(`DiscoveringServices`, then `ServiceDiscovered`), the wifi lambda has run twice and has
connected `emitWifi` twice to each signal.  One notification with the bytes of "SSID=Home"
on the published characteristic gives two `wifiInfo` signals, and so does one completed
read; an empty value gives none. -/
theorem C9_value_emitted_once_per_state_change :
    (Ble.ready.wifi_.map fun w => w.characteristicChanged) =
      some [ValueSlot.emitWifi, ValueSlot.emitWifi] ∧
    (∀ qt : Utf8,
      (Ble.wifiCharacteristicChanged qt wifiPublished ssidHome Ble.ready).trace =
        [Effect.emit (Event.wifiInfo (qt.fromUtf8 ssidHome)),
         Effect.emit (Event.wifiInfo (qt.fromUtf8 ssidHome))]) ∧
    (∀ qt : Utf8,
      (Ble.wifiCharacteristicRead qt wifiPublished ssidHome Ble.ready).trace =
        [Effect.emit (Event.wifiInfo (qt.fromUtf8 ssidHome)),
         Effect.emit (Event.wifiInfo (qt.fromUtf8 ssidHome))]) ∧
    (Ble.wifiCharacteristicChanged Utf8.ascii wifiPublished ssidHome Ble.ready).trace =
      [Effect.emit (Event.wifiInfo "SSID=Home"), Effect.emit (Event.wifiInfo "SSID=Home")] ∧
    (∀ qt : Utf8, (Ble.wifiCharacteristicChanged qt wifiPublished [] Ble.ready).trace = []) := by
  refine ⟨by decide, fun qt => rfl, fun qt => rfl, by decide, fun qt => rfl⟩

/-- C10: the lambda of the wifi service emits nothing and issues no request for a state
other than `ServiceDiscovered`; for `ServiceDiscovered`, with a valid published
characteristic that has a valid configuration descriptor, it emits `wifiReady(true)`, then
writes the bytes 0x01 0x00 to the descriptor, then reads the published characteristic once,
and no more.  The lambda of the power service emits `powerReady(true)` for
`ServiceDiscovered` and nothing for any other state.  And in every state that a run from a
fresh object reaches, a step emits `powerReady(true)` only if it is the change of the power
service to `ServiceDiscovered`, and `wifiReady(true)` only if it is the change of the wifi
service to `ServiceDiscovered`. -/
theorem C10_ready_only_when_discovered :
    (∀ (s : ServiceState) (b : Ble),
      s ≠ ServiceState.ServiceDiscovered → (Ble.onWifiState s b).trace = []) ∧
    (∀ (b : Ble) (w : QLowEnergyService) (ch : QLowEnergyCharacteristic)
      (de : QLowEnergyDescriptor),
      b.wifi_ = some w → w.characteristic wifiPublishedUuid = some ch →
      ch.descriptor QBluetoothUuid.ClientCharacteristicConfiguration = some de →
      (Ble.onWifiState ServiceState.ServiceDiscovered b).trace =
        [Effect.emit (Event.wifiReady true),
         Effect.call (Request.writeDescriptor Session.wifi de [0x01, 0x00]),
         Effect.call (Request.readCharacteristic Session.wifi ch)]) ∧
    (∀ (s : ServiceState) (b : Ble),
      s ≠ ServiceState.ServiceDiscovered → (Ble.onPowerState s b).trace = []) ∧
    (∀ b : Ble, (Ble.onPowerState ServiceState.ServiceDiscovered b).trace =
      [Effect.emit (Event.powerReady true)]) ∧
    (∀ (qt : Utf8) (as : List Action) (a : Action),
      Effect.emit (Event.powerReady true) ∈
        (Ble.step qt (Ble.run qt Ble.init as).state a).trace →
      a = Action.powerStateChanged ServiceState.ServiceDiscovered) ∧
    (∀ (qt : Utf8) (as : List Action) (a : Action),
      Effect.emit (Event.wifiReady true) ∈
        (Ble.step qt (Ble.run qt Ble.init as).state a).trace →
      a = Action.wifiStateChanged ServiceState.ServiceDiscovered) := by
  refine ⟨?_, ?_, ?_, fun b => rfl, ?_, ?_⟩
  · intro s b hs
    unfold Ble.onWifiState
    cases b.wifi_ with
    | none => rfl
    | some w => simp [hs]
  · intro b w ch de hw hc hd
    have hc2 : QLowEnergyService.characteristic
        { w with
          characteristicChanged := w.characteristicChanged ++ [ValueSlot.emitWifi]
          characteristicRead := w.characteristicRead ++ [ValueSlot.emitWifi] }
        wifiPublishedUuid = some ch := hc
    have hx : QByteArray.fromHex "0100" = [0x01, 0x00] := by decide
    unfold Ble.onWifiState
    rw [hw]
    simp [hc2, hd, hx]
  · intro s b hs
    simp [Ble.onPowerState, hs]
  · intro qt as a
    exact (ready_only_on_discovered qt _ a (run_wired qt as _ init_wired)).1
  · intro qt as a
    exact (ready_only_on_discovered qt _ a (run_wired qt as _ init_wired)).2

theorem C10_ready_only_when_discovered_witness :
    (Ble.onWifiState ServiceState.DiscoveringServices Ble.discovering).trace = [] ∧
    (Ble.onWifiState ServiceState.ServiceDiscovered Ble.discovering).trace =
      [Effect.emit (Event.wifiReady true),
       Effect.call (Request.writeDescriptor Session.wifi
         { uuid := QBluetoothUuid.ClientCharacteristicConfiguration } [0x01, 0x00]),
       Effect.call (Request.readCharacteristic Session.wifi wifiPublished)] ∧
    (Ble.onPowerState ServiceState.DiscoveringServices Ble.discovering).trace = [] ∧
    Effect.emit (Event.powerReady true) ∈
      (Ble.step Utf8.ascii (Ble.run Utf8.ascii Ble.init discovery).state
        (Action.powerStateChanged ServiceState.ServiceDiscovered)).trace ∧
    Action.powerStateChanged ServiceState.ServiceDiscovered =
      Action.powerStateChanged ServiceState.ServiceDiscovered ∧
    Effect.emit (Event.wifiReady true) ∈
      (Ble.step Utf8.ascii (Ble.run Utf8.ascii Ble.init discovery).state
        (Action.wifiStateChanged ServiceState.ServiceDiscovered)).trace ∧
    Action.wifiStateChanged ServiceState.ServiceDiscovered =
      Action.wifiStateChanged ServiceState.ServiceDiscovered :=
  ⟨C10_ready_only_when_discovered.1 ServiceState.DiscoveringServices Ble.discovering (by decide),
   C10_ready_only_when_discovered.2.1 Ble.discovering _ wifiPublished
     { uuid := QBluetoothUuid.ClientCharacteristicConfiguration } rfl (by decide) (by decide),
   C10_ready_only_when_discovered.2.2.1 ServiceState.DiscoveringServices Ble.discovering
     (by decide),
   by decide,
   C10_ready_only_when_discovered.2.2.2.2.1 Utf8.ascii discovery
     (Action.powerStateChanged ServiceState.ServiceDiscovered) (by decide),
   by decide,
   C10_ready_only_when_discovered.2.2.2.2.2 Utf8.ascii discovery
     (Action.wifiStateChanged ServiceState.ServiceDiscovered) (by decide)⟩

/-- C11, as the code has it: in `Ble.lost` (both services were found and discovered on a
first controller, then the link was lost) `connectToProbe("P100")` is accepted and puts a
new controller, which has found no service yet, in place of the first.  `power_` and
`wifi_` still hold the service objects made under the first controller.  And when the
discovery on the new controller finishes without either service found, the two timer
lambdas ask those objects for their details. -/
theorem C11_sessions_survive_reconnect :
    (Ble.connectToProbe "P100" Ble.lost).ret = true ∧
    (Ble.connectToProbe "P100" Ble.lost).state.probe_ =
      some { device := probeP100, state := ControllerState.ConnectingState, services := [] } ∧
    (Ble.connectToProbe "P100" Ble.lost).state.power_.isSome = true ∧
    (Ble.connectToProbe "P100" Ble.lost).state.wifi_.isSome = true ∧
    (Ble.connectToProbe "P100" Ble.lost).state.power_ = Ble.ready.power_.map
      (fun p => { p with state := ServiceState.InvalidService }) ∧
    (Ble.run Utf8.ascii (Ble.connectToProbe "P100" Ble.lost).state
      [Action.connected, Action.discoveryFinished, Action.timeout, Action.timeout]).trace =
      [Effect.emit (Event.powerReady false), Effect.emit (Event.wifiReady false),
       Effect.call Request.discoverServices,
       Effect.call (Request.discoverDetails Session.power),
       Effect.call (Request.discoverDetails Session.wifi)] := by
  decide

/-- C11, amended: `connectToProbe`, accepted or not, leaves `power_` and `wifi_` as they
were, so `power` and `requestWifi` return and request after it what they would have
before it; a session that does not exist comes to exist only by `onService` on its UUID;
and no step takes a session that exists away.  The service objects of a previous
controller are so still held after an accepted `connectToProbe`, but `power` and
`requestWifi` cannot operate on them: after a failure of the link and any `connectToProbe`
that follows, both return false, request nothing and change nothing. -/
theorem C11_sessions_made_only_by_onService :
    (∀ (name : QString) (b : Ble),
      (Ble.connectToProbe name b).state.power_ = b.power_ ∧
      (Ble.connectToProbe name b).state.wifi_ = b.wifi_) ∧
    (∀ (qt : Utf8) (name : QString) (b : Ble) (en : Bool) (info : QString),
      (Ble.power en (Ble.connectToProbe name b).state).ret = (Ble.power en b).ret ∧
      (Ble.power en (Ble.connectToProbe name b).state).trace = (Ble.power en b).trace ∧
      (Ble.requestWifi qt info (Ble.connectToProbe name b).state).ret =
        (Ble.requestWifi qt info b).ret ∧
      (Ble.requestWifi qt info (Ble.connectToProbe name b).state).trace =
        (Ble.requestWifi qt info b).trace) ∧
    (∀ (qt : Utf8) (b : Ble) (a : Action),
      b.power_ = none → (Ble.step qt b a).state.power_.isSome = true →
      ∃ chars, a = Action.serviceDiscovered QBluetoothUuid.ImmediateAlert chars) ∧
    (∀ (qt : Utf8) (b : Ble) (a : Action),
      b.wifi_ = none → (Ble.step qt b a).state.wifi_.isSome = true →
      ∃ chars, a = Action.serviceDiscovered wifiUuid chars) ∧
    (∀ (qt : Utf8) (b : Ble) (a : Action),
      b.power_.isSome = true → (Ble.step qt b a).state.power_.isSome = true) ∧
    (∀ (qt : Utf8) (b : Ble) (a : Action),
      b.wifi_.isSome = true → (Ble.step qt b a).state.wifi_.isSome = true) ∧
    (∀ (e : ControllerError) (b : Ble) (name : QString) (en : Bool),
      Ble.power en (Ble.connectToProbe name (Ble.adapterFailure e b).state).state =
        { ret := false, state := (Ble.connectToProbe name (Ble.adapterFailure e b).state).state
          trace := [] }) ∧
    (∀ (qt : Utf8) (e : ControllerError) (b : Ble) (name : QString) (info : QString),
      Ble.requestWifi qt info (Ble.connectToProbe name (Ble.adapterFailure e b).state).state =
        { ret := false, state := (Ble.connectToProbe name (Ble.adapterFailure e b).state).state
          trace := [] }) := by
  refine ⟨connectToProbe_sessions, ?_, ?_, ?_, ?_, ?_, ?_, ?_⟩
  · intro qt name b en info
    obtain ⟨h1, h2⟩ := connectToProbe_sessions name b
    obtain ⟨k1, k2⟩ := power_of_session en b _ h1
    obtain ⟨k3, k4⟩ := requestWifi_of_session qt info b _ h2
    exact ⟨k1, k2, k3, k4⟩
  · intro qt b a hb ha
    rcases (step_sessions qt b a).1 with h | ⟨h, _⟩
    · rw [h, hb] at ha
      cases ha
    · exact h
  · intro qt b a hb ha
    rcases (step_sessions qt b a).2 with h | ⟨h, _⟩
    · rw [h, hb] at ha
      cases ha
    · exact h
  · intro qt b a hb
    rcases (step_sessions qt b a).1 with h | ⟨_, h⟩
    · rw [h, hb]
    · exact h
  · intro qt b a hb
    rcases (step_sessions qt b a).2 with h | ⟨_, h⟩
    · rw [h, hb]
    · exact h
  · intro e b name en
    apply power_refused
    intro p hp
    rw [(sessions_invalid_after_failure e b name).1 p hp]
    decide
  · intro qt e b name info
    apply requestWifi_refused
    intro w hw
    rw [(sessions_invalid_after_failure e b name).2 w hw]
    decide

theorem C11_sessions_made_only_by_onService_witness :
    (∃ chars, Action.serviceDiscovered QBluetoothUuid.ImmediateAlert [alertLevel] =
      Action.serviceDiscovered QBluetoothUuid.ImmediateAlert chars) ∧
    (∃ chars, Action.serviceDiscovered wifiUuid [wifiPublished, wifiRequest] =
      Action.serviceDiscovered wifiUuid chars) ∧
    (Ble.step Utf8.ascii Ble.lost (Action.connectToProbe "P100")).state.power_.isSome = true ∧
    (Ble.step Utf8.ascii Ble.lost (Action.connectToProbe "P100")).state.wifi_.isSome = true :=
  ⟨C11_sessions_made_only_by_onService.2.2.1 Utf8.ascii Ble.linked
     (Action.serviceDiscovered QBluetoothUuid.ImmediateAlert [alertLevel]) (by decide) (by decide),
   C11_sessions_made_only_by_onService.2.2.2.1 Utf8.ascii Ble.linked
     (Action.serviceDiscovered wifiUuid [wifiPublished, wifiRequest]) (by decide) (by decide),
   C11_sessions_made_only_by_onService.2.2.2.2.1 Utf8.ascii Ble.lost
     (Action.connectToProbe "P100") (by decide),
   C11_sessions_made_only_by_onService.2.2.2.2.2.1 Utf8.ascii Ble.lost
     (Action.connectToProbe "P100") (by decide)⟩

/-- C12, as the code has it: in `Ble.ready` the link is up, both services are discovered
and a listener has seen `powerReady(true)` and `wifiReady(true)`.  The link is lost: nothing
is emitted and nothing is requested, so no status is reported and the listener keeps both
flags true; `power_` and `wifi_` still hold their service objects.  The same in
`Ble.linked`, with the controller in `ConnectedState`: nothing is emitted. -/
theorem C12_link_loss_gives_no_event :
    (Ble.ready.probe_.map fun p => p.state) = some ControllerState.DiscoveredState ∧
    Readiness.after { power := false, wifi := false }
      (Ble.run Utf8.ascii Ble.discovering
        [Action.powerStateChanged ServiceState.ServiceDiscovered,
         Action.wifiStateChanged ServiceState.ServiceDiscovered]).trace =
      { power := true, wifi := true } ∧
    (Ble.adapterFailure ControllerError.RemoteHostClosedError Ble.ready).trace = [] ∧
    Readiness.after { power := true, wifi := true }
      (Ble.adapterFailure ControllerError.RemoteHostClosedError Ble.ready).trace =
      { power := true, wifi := true } ∧
    (Ble.adapterFailure ControllerError.RemoteHostClosedError Ble.ready).state.power_.isSome =
      true ∧
    (Ble.adapterFailure ControllerError.RemoteHostClosedError Ble.ready).state.wifi_.isSome =
      true ∧
    (Ble.linked.probe_.map fun p => p.state) = some ControllerState.ConnectedState ∧
    (Ble.adapterFailure ControllerError.RemoteHostClosedError Ble.linked).trace = [] := by
  decide

/-- C12, amended: in every state, when the adapter reports the loss of the link or any other
error, no slot of `Ble` runs for the `error`, `stateChanged` and `disconnected` signals of
the controller; nothing is emitted and nothing is requested, so the readiness flags of a
listener stay as they were; the registry is as it was and `power_` and `wifi_` hold a
service object if they did before.  The service objects are invalid by the doing of Qt
alone, which leaves them in `InvalidService`: `power` and `requestWifi` return false
after the failure, with no request and no change. -/
theorem C12_failure_is_not_reported (e : ControllerError) (b : Ble) :
    Ble.controllerSignal (ControllerSignal.error e) b = { ret := (), state := b, trace := [] } ∧
    (∀ s, Ble.controllerSignal (ControllerSignal.stateChanged s) b =
      { ret := (), state := b, trace := [] }) ∧
    Ble.controllerSignal ControllerSignal.disconnected b =
      { ret := (), state := b, trace := [] } ∧
    (Ble.adapterFailure e b).trace = [] ∧
    (∀ f : Readiness, f.after (Ble.adapterFailure e b).trace = f) ∧
    (Ble.adapterFailure e b).state.probes_ = b.probes_ ∧
    (Ble.adapterFailure e b).state.power_.isSome = b.power_.isSome ∧
    (Ble.adapterFailure e b).state.wifi_.isSome = b.wifi_.isSome ∧
    (∀ en : Bool, Ble.power en (Ble.adapterFailure e b).state =
      { ret := false, state := (Ble.adapterFailure e b).state, trace := [] }) ∧
    (∀ (qt : Utf8) (info : QString), Ble.requestWifi qt info (Ble.adapterFailure e b).state =
      { ret := false, state := (Ble.adapterFailure e b).state, trace := [] }) := by
  obtain ⟨h1, h2, h3, h4, _⟩ := adapterFailure_facts e b
  refine ⟨rfl, fun s => rfl, rfl, h1, ?_, h4, isSome_of_map_state _ _ _ _ h2,
    isSome_of_map_state _ _ _ _ h3, ?_, ?_⟩
  · intro f
    rw [h1]
    rfl
  · intro en
    apply power_refused
    intro p hp
    rw [hp] at h2
    cases hb : b.power_ with
    | none => simp [hb] at h2
    | some p0 =>
      simp [hb] at h2
      simp [h2]
  · intro qt info
    apply requestWifi_refused
    intro w hw
    rw [hw] at h3
    cases hb : b.wifi_ with
    | none => simp [hb] at h3
    | some w0 =>
      simp [hb] at h3
      simp [h3]

end Clarius
